import Mathlib

/-!
# v8_wrap.cc: the opaque-handle bridge over the embedded JavaScript engine

A shallow embedding of `src/v8_wrap.cc`.  Every exported function of the file is a
Lean function over an explicit `World`: the engine heap, the stack of RAII guards
that are currently alive (lockers, isolate scopes, handle scopes, context scopes)
and the log of the guard actions and engine calls performed so far.

The engine itself (`v8.h`) is not part of the repository.  Whatever it decides
(does `Context::New` succeed, what does `Script::Run` return, what does `Object::Get`
find) is a field of the `Engine` record, a parameter of every definition, so the
results hold for every engine.  Only what the wrapper builds itself is modelled
concretely: the RAII guards, the value constructors, the strings it marshals byte by
byte and the classification of these primitives.
-/

namespace V8Wrap

open scoped List

/-! ## Engine objects and handles -/

/-- Identity of an isolate (`Isolate*`). -/
abbrev Isolate := Nat

/-- Identity of an engine context object. -/
abbrev Context := Nat

/-- Identity of an engine compiled-script object. -/
abbrev Script := Nat

/-- Identity of an engine `ScriptData` object (`ScriptData*`). -/
abbrev ScriptData := Nat

/-- A C `double`, kept as its 64-bit pattern; the wrapper only passes it through. -/
abbrev Double := Nat

/-- The engine reference types `Handle<T>`, `Local<T>` and `Persistent<T>`: either empty
(`IsEmpty()`) or referring to one engine object. -/
abbrev Handle (T : Type) := Option T

/-- Engine values, as far as the wrapper can tell them apart: the four per-isolate
singletons, numbers made by `Number::New`, strings with their code units, and any
other object the engine produces (by identity). -/
inductive Value where
  | undefined (isolate : Isolate)
  | null (isolate : Isolate)
  | true_ (isolate : Isolate)
  | false_ (isolate : Isolate)
  | number (isolate : Isolate) (val : Double)
  | string (units : List Nat)
  | heap (id : Nat)
  deriving DecidableEq, Repr

/-- The engine class `ScriptOrigin`: resource name, line offset, column offset. -/
structure ScriptOrigin where
  resource_name : Handle Value
  resource_line_offset : Handle Int
  resource_column_offset : Handle Int
  deriving DecidableEq, Repr

/-- The wrapper class `V8_Context` (the engine handle and the context handle). -/
structure V8_Context where
  isolate_ : Isolate
  self : Handle Context
  deriving DecidableEq, Repr

/-- The wrapper class `V8_Script`. -/
structure V8_Script where
  isolate_ : Isolate
  self : Handle Script
  deriving DecidableEq, Repr

/-- The wrapper class `V8_Value`. -/
structure V8_Value where
  isolate_ : Isolate
  self : Handle Value
  context : Handle Context
  deriving DecidableEq, Repr

/-- The member function `GetIsolate` of `V8_Context`. -/
def V8_Context.GetIsolate (c : V8_Context) : Isolate := c.isolate_

/-- The member function `GetIsolate` of `V8_Script`. -/
def V8_Script.GetIsolate (s : V8_Script) : Isolate := s.isolate_

/-- The member function `GetIsolate` of `V8_Value`. -/
def V8_Value.GetIsolate (v : V8_Value) : Isolate := v.isolate_

/-! ## Guards, events and the world -/

/-- What a persistent reference refers to. -/
inductive Ref where
  | context (c : Handle Context)
  | script (s : Handle Script)
  | value (v : Handle Value)
  deriving DecidableEq, Repr

/-- The nineteen classification methods of the engine class `Value`. -/
inductive Pred where
  | IsUndefined | IsNull | IsTrue | IsFalse | IsString | IsFunction | IsArray
  | IsObject | IsBoolean | IsNumber | IsExternal | IsInt32 | IsUint32 | IsDate
  | IsBooleanObject | IsNumberObject | IsStringObject | IsNativeError | IsRegExp
  deriving DecidableEq, Repr

/-- The engine operations the wrapper performs on behalf of its caller. -/
inductive EngineCall where
  | ContextNew | ScriptNew | Run | PreCompile
  | ToString | BooleanValue | NumberValue | IntegerValue | Uint32Value | Int32Value
  | Is (p : Pred)
  | Set | Get | SetIndex | GetIndex | GetPropertyAttributes | ForceSet
  | Has | Delete | ForceDelete | HasIndex | DeleteIndex | Length
  deriving DecidableEq, Repr

/-- One observable action of the wrapper. -/
inductive Event where
  | isolateNew (i : Isolate)
  | isolateDispose (i : Isolate)
  | lock (i : Isolate)
  | unlock (i : Isolate)
  | enterIsolate (i : Isolate)
  | exitIsolate (i : Isolate)
  | openHandleScope (i : Isolate)
  | closeHandleScope (i : Isolate)
  | enterContext (c : Handle Context)
  | exitContext (c : Handle Context)
  | persistentReset (i : Isolate) (r : Ref)
  | persistentDispose (r : Ref)
  | persistentClear (r : Ref)
  | engine (op : EngineCall)
  deriving DecidableEq, Repr

/-- The RAII guards alive on the calling thread: `locks` holds one entry per live
`Locker` (the lock depth of an isolate is the number of its entries), `entered` is the
stack of entered isolates, `scopes` the stack of open handle scopes, `contexts` the stack
of entered contexts.  The most recent entry is the head. -/
structure Guard where
  locks : List Isolate
  entered : List Isolate
  scopes : List Isolate
  contexts : List (Handle Context)
  deriving DecidableEq, Repr

/-- Effect of one event on the guards.  Constructors push, destructors pop. -/
def Guard.step (g : Guard) : Event → Guard
  | .lock i => { g with locks := i :: g.locks }
  | .unlock i => { g with locks := g.locks.erase i }
  | .enterIsolate i => { g with entered := i :: g.entered }
  | .exitIsolate _ => { g with entered := g.entered.tail }
  | .openHandleScope i => { g with scopes := i :: g.scopes }
  | .closeHandleScope _ => { g with scopes := g.scopes.tail }
  | .enterContext c => { g with contexts := c :: g.contexts }
  | .exitContext _ => { g with contexts := g.contexts.tail }
  | _ => g

/-- Lock depth of an isolate. -/
def Guard.lockDepth (g : Guard) (i : Isolate) : Nat := g.locks.count i

/-- The state an exported function runs in: the engine heap `H`, the guards, the log. -/
structure World (H : Type) where
  heap : H
  guard : Guard
  log : List Event

/-- Perform one event: update the guards and append to the log. -/
def World.emit {H : Type} (w : World H) (e : Event) : World H :=
  { w with guard := w.guard.step e, log := w.log ++ [e] }

/-- Replace the engine heap (after an engine call). -/
def World.setHeap {H : Type} (w : World H) (h : H) : World H :=
  { w with heap := h }

/-- A computation of the wrapper: from a world to a result and the world after. -/
abbrev Action (H : Type) (α : Type) := World H → α × World H

/-! ## The engine, as a parameter -/

/-- The embedding API of the engine, as far as the wrapper calls it and its answer is
the engine's own business.  A call that may run script code or allocate takes the heap
and the guards and returns the new heap; a `const` query only reads. `uninit` is the
content of freshly allocated C memory. -/
structure Engine (H : Type) where
  IsolateNew : H → Isolate × H
  IsolateDispose : H → Isolate → H
  ContextNew : H → Guard → Isolate → Handle Context × H
  ScriptNew : H → Guard → Handle Value → Option ScriptOrigin → Option ScriptData →
    Handle Value → Handle Script × H
  ScriptRun : H → Guard → Handle Script → Handle Value × H
  PreCompile : H → Guard → Handle Value → Option ScriptData × H
  ScriptDataNew : H → List Nat → Int → Option ScriptData × H
  ScriptDataDelete : H → Option ScriptData → H
  ScriptDataLength : H → ScriptData → Int
  ScriptDataData : H → ScriptData → List Nat
  ScriptDataHasError : H → ScriptData → Bool
  Is : H → Pred → Handle Value → Bool
  ToString : H → Guard → Handle Value → Handle (List Nat) × H
  LengthOfEmpty : Nat
  WriteOneByteOfEmpty : List Nat → List Nat
  BooleanValue : H → Guard → Handle Value → Bool × H
  NumberValue : H → Guard → Handle Value → Double × H
  IntegerValue : H → Guard → Handle Value → Int × H
  Uint32Value : H → Guard → Handle Value → Nat × H
  Int32Value : H → Guard → Handle Value → Int × H
  Set : H → Guard → Handle Value → Handle Value → Handle Value → Int → Bool × H
  Get : H → Guard → Handle Value → Handle Value → Handle Value × H
  SetIndex : H → Guard → Handle Value → Nat → Handle Value → Bool × H
  GetIndex : H → Guard → Handle Value → Nat → Handle Value × H
  GetPropertyAttributes : H → Guard → Handle Value → Handle Value → Int × H
  ForceSet : H → Guard → Handle Value → Handle Value → Handle Value → Int → Bool × H
  Has : H → Guard → Handle Value → Handle Value → Bool × H
  Delete : H → Guard → Handle Value → Handle Value → Bool × H
  ForceDelete : H → Guard → Handle Value → Handle Value → Bool × H
  HasIndex : H → Guard → Handle Value → Nat → Bool × H
  DeleteIndex : H → Guard → Handle Value → Nat → Bool × H
  Length : H → Handle Value → Nat
  uninit : Nat → Nat

section Model

variable {H : Type}

/-- Modelled from the spec: the engine constructor `Undefined(isolate)` of `v8.h`, which is
not under src/: the undefined value of the isolate. -/
def Undefined (isolate : Isolate) : Handle Value := some (Value.undefined isolate)

/-- Modelled from the spec: the engine constructor `Null(isolate)` of `v8.h`. -/
def Null (isolate : Isolate) : Handle Value := some (Value.null isolate)

/-- Modelled from the spec: the engine constructor `True(isolate)` of `v8.h`. -/
def True_ (isolate : Isolate) : Handle Value := some (Value.true_ isolate)

/-- Modelled from the spec: the engine constructor `False(isolate)` of `v8.h`. -/
def False_ (isolate : Isolate) : Handle Value := some (Value.false_ isolate)

/-- Modelled from the spec: the engine constructor `Number::New(isolate, val)` of `v8.h`. -/
def Number_New (isolate : Isolate) (val : Double) : Handle Value :=
  some (Value.number isolate val)

/-- Modelled from the spec: the engine constructor `Integer::New(value)` of `v8.h`, as used
for the offsets of a script origin. -/
def Integer_New (value : Int) : Handle Int := some value

/-- Modelled from the spec: `String::NewFromOneByte(isolate, data, kNormalString, length)`
of `v8.h`, which is not under src/.  The text is single-byte (Latin-1 style), of the given
length, with no implicit terminator: the string has one code unit per byte, the first
`length` bytes of `data`. -/
def String_NewFromOneByte (_isolate : Isolate) (data : List Nat) (length : Int) :
    Handle Value :=
  some (Value.string ((data.take length.toNat).map (fun b => b % 256)))

/-- Modelled from the spec: the engine operation `Local<T>::New(isolate, persistent)` of
`v8.h`: a transient reference to what the persistent one refers to (empty when that one
is empty). -/
def Local_New {T : Type} (_isolate : Isolate) (p : Handle T) : Handle T := p

/-- Modelled from the spec: the classification methods of the engine class `Value` of
`v8.h`, which is not under src/.  A primitive built by one of the constructors above is
classified by what it is (a string is a string, undefined is undefined and not null, and
so on); whether a number is an int32 or uint32, what a heap object is, and what an empty
reference answers, is the engine's. -/
def Value_Is (E : Engine H) (h : H) (p : Pred) (v : Handle Value) : Bool :=
  match v with
  | some (Value.undefined _) => decide (p = Pred.IsUndefined)
  | some (Value.null _) => decide (p = Pred.IsNull)
  | some (Value.true_ _) => decide (p = Pred.IsTrue) || decide (p = Pred.IsBoolean)
  | some (Value.false_ _) => decide (p = Pred.IsFalse) || decide (p = Pred.IsBoolean)
  | some (Value.string _) => decide (p = Pred.IsString)
  | some (Value.number _ _) =>
      decide (p = Pred.IsNumber) ||
        ((decide (p = Pred.IsInt32) || decide (p = Pred.IsUint32)) && E.Is h p v)
  | _ => E.Is h p v

/-- Modelled from the spec: `Value::ToString()` of `v8.h`, which is not under src/.  A
string converts to itself without touching the heap; every other conversion is the
engine's (it may run script code and may come back empty). -/
def Value_ToString (E : Engine H) (h : H) (g : Guard) (v : Handle Value) :
    Handle (List Nat) × H :=
  match v with
  | some (Value.string units) => (some units, h)
  | _ => E.ToString h g v

/-- Modelled from the spec: `String::Length()`, the code-unit count of the string. -/
def String_Length (E : Engine H) (s : Handle (List Nat)) : Nat :=
  match s with
  | some units => units.length
  | none => E.LengthOfEmpty

/-- Modelled from the spec: `String::WriteOneByte(buffer)` with its default arguments
(from the start, the whole string, no options): the low byte of every code unit, then one
terminator byte, written over the beginning of `buffer`. -/
def String_WriteOneByte (E : Engine H) (s : Handle (List Nat)) (buffer : List Nat) :
    List Nat :=
  match s with
  | some units => units.map (fun u => u % 256) ++ [0] ++ buffer.drop (units.length + 1)
  | none => E.WriteOneByteOfEmpty buffer

/-- The C allocator `malloc(size)`: `size` bytes of unspecified content. -/
def malloc (E : Engine H) (size : Nat) : List Nat :=
  (List.range size).map (fun k => E.uninit k % 256)

/-- Conversion of a C++ `bool` to the `int` the exported functions return. -/
def bool_to_int (b : Bool) : Int := if b then 1 else 0

/-- Conversion of a `uint32_t` to `int` (two's complement, 32 bits). -/
def uint32_to_int (n : Nat) : Int :=
  if n % 2 ^ 32 < 2 ^ 31 then ((n % 2 ^ 32 : Nat) : Int) else ((n % 2 ^ 32 : Nat) : Int) - 2 ^ 32

/-! ## RAII guards and the three scope macros -/

/-- Modelled from the spec: the engine guard class `Locker` of `v8.h`, which is not under
src/.  `Locker locker(isolate)` around `body`: the constructor takes the exclusive lock of
the isolate before the body, the destructor gives it back after it, whatever the body
returns. -/
def Locker {α : Type} (isolate : Isolate) (body : Action H α) : Action H α := fun w =>
  let out := body (w.emit (Event.lock isolate))
  (out.1, out.2.emit (Event.unlock isolate))

/-- Modelled from the spec: the engine guard class `Isolate::Scope` of `v8.h`: the isolate
is entered (marked active) before `body` and left after it. -/
def Isolate_Scope {α : Type} (isolate : Isolate) (body : Action H α) : Action H α := fun w =>
  let out := body (w.emit (Event.enterIsolate isolate))
  (out.1, out.2.emit (Event.exitIsolate isolate))

/-- Modelled from the spec: the engine guard class `HandleScope` of `v8.h`: a scope for
transient references is opened before `body` and closed after it. -/
def HandleScope {α : Type} (isolate : Isolate) (body : Action H α) : Action H α := fun w =>
  let out := body (w.emit (Event.openHandleScope isolate))
  (out.1, out.2.emit (Event.closeHandleScope isolate))

/-- Modelled from the spec: the engine guard class `Context::Scope` of `v8.h`: the context
is entered before `body` and left after it. -/
def Context_Scope {α : Type} (context : Handle Context) (body : Action H α) : Action H α :=
  fun w =>
    let out := body (w.emit (Event.enterContext context))
    (out.1, out.2.emit (Event.exitContext context))

/-- The source's `ISOLATE_SCOPE(isolate_ptr)`: locker, isolate scope, handle scope, declared
in this order and so destroyed in the reverse order when the function returns. -/
def ISOLATE_SCOPE {α : Type} (isolate_ptr : Isolate) (body : Isolate → Action H α) :
    Action H α :=
  let isolate := isolate_ptr
  Locker isolate (Isolate_Scope isolate (HandleScope isolate (body isolate)))

/-- The source's `VALUE_TO_LOCAL(value, local_value)`. -/
def VALUE_TO_LOCAL {α : Type} (value : V8_Value)
    (body : Isolate → Handle Value → Action H α) : Action H α :=
  let val := value
  ISOLATE_SCOPE val.GetIsolate (fun isolate =>
    let local_value := Local_New isolate val.self
    body isolate local_value)

/-- The source's `VALUE_SCOPE(value, local_value)`. -/
def VALUE_SCOPE {α : Type} (value : V8_Value)
    (body : Isolate → Handle Context → Handle Value → Action H α) : Action H α :=
  let val := value
  ISOLATE_SCOPE val.GetIsolate (fun isolate =>
    let context := Local_New isolate val.context
    Context_Scope context
      (let local_value := Local_New isolate val.self
       body isolate context local_value))

/-- One engine call: install the heap the engine left and log the call. -/
def engineCall {α : Type} (op : EngineCall) (w : World H) (r : α × H) : α × World H :=
  (r.1, (w.setHeap r.2).emit (Event.engine op))

/-- One `const` engine query: the heap stays, the call is logged. -/
def engineQuery {α : Type} (op : EngineCall) (w : World H) (r : α) : α × World H :=
  (r, w.emit (Event.engine op))

/-! ## The wrapper classes: constructors and destructors -/

/-- The constructor `V8_Context(isolate, context)`: store the isolate, reset the
persistent reference to the context. -/
def V8_Context.construct (isolate : Isolate) (context : Handle Context) :
    Action H V8_Context := fun w =>
  ({ isolate_ := isolate, self := context },
    w.emit (Event.persistentReset isolate (Ref.context context)))

/-- The destructor of `V8_Context`: under a locker and an isolate scope (no handle scope),
dispose and reset the persistent reference. -/
def V8_Context.destruct (c : V8_Context) : Action H Unit :=
  Locker c.isolate_ (Isolate_Scope c.isolate_ (fun w =>
    ((), (w.emit (Event.persistentDispose (Ref.context c.self))).emit
      (Event.persistentClear (Ref.context none)))))

/-- The constructor `V8_Script(isolate, script)`. -/
def V8_Script.construct (isolate : Isolate) (script : Handle Script) :
    Action H V8_Script := fun w =>
  ({ isolate_ := isolate, self := script },
    w.emit (Event.persistentReset isolate (Ref.script script)))

/-- The destructor of `V8_Script`. -/
def V8_Script.destruct (s : V8_Script) : Action H Unit :=
  Locker s.isolate_ (Isolate_Scope s.isolate_ (fun w =>
    ((), (w.emit (Event.persistentDispose (Ref.script s.self))).emit
      (Event.persistentClear (Ref.script none)))))

/-- The constructor `V8_Value(isolate, context_handle, value)`: the value reference is
reset first, then the context reference. -/
def V8_Value.construct (isolate : Isolate) (context_handle : Handle Context)
    (value : Handle Value) : Action H V8_Value := fun w =>
  ({ isolate_ := isolate, self := value, context := context_handle },
    (w.emit (Event.persistentReset isolate (Ref.value value))).emit
      (Event.persistentReset isolate (Ref.context context_handle)))

/-- The destructor of `V8_Value`: both persistent references, value first. -/
def V8_Value.destruct (v : V8_Value) : Action H Unit :=
  Locker v.isolate_ (Isolate_Scope v.isolate_ (fun w =>
    ((), (((w.emit (Event.persistentDispose (Ref.value v.self))).emit
      (Event.persistentClear (Ref.value none))).emit
      (Event.persistentDispose (Ref.context v.context))).emit
      (Event.persistentClear (Ref.context none)))))

/-! ## Isolate, context and script wrappers -/

/-- The exported function `V8_NewEngine`. -/
def V8_NewEngine (E : Engine H) : Action H (Option V8_Context) := fun w =>
  let fresh := E.IsolateNew w.heap
  ISOLATE_SCOPE fresh.1 (fun isolate w =>
    let context := engineCall EngineCall.ContextNew w (E.ContextNew w.heap w.guard isolate)
    if context.1.isNone then (none, context.2)
    else Prod.map some id (V8_Context.construct isolate context.1 context.2))
    ((w.setHeap fresh.2).emit (Event.isolateNew fresh.1))

/-- The exported function `V8_DisposeEngine`: delete the record, then dispose the isolate. -/
def V8_DisposeEngine (E : Engine H) (engine : V8_Context) : Action H Unit := fun w =>
  let ctx := engine
  let isolate := ctx.GetIsolate
  let w1 := (V8_Context.destruct ctx w).2
  ((), (w1.setHeap (E.IsolateDispose w1.heap isolate)).emit (Event.isolateDispose isolate))

/-- The exported function `V8_NewContext`. -/
def V8_NewContext (E : Engine H) (engine : V8_Context) : Action H (Option V8_Context) :=
  let ctx := engine
  ISOLATE_SCOPE ctx.GetIsolate (fun isolate w =>
    let context := engineCall EngineCall.ContextNew w (E.ContextNew w.heap w.guard isolate)
    if context.1.isNone then (none, context.2)
    else Prod.map some id (V8_Context.construct isolate context.1 context.2))

/-- The exported function `V8_DisposeContext`. -/
def V8_DisposeContext (context : V8_Context) : Action H Unit :=
  V8_Context.destruct context

/-- The exported function `V8_Compile`. -/
def V8_Compile (E : Engine H) (engine : V8_Context) (code : List Nat) (length : Int)
    (script_origin : Option ScriptOrigin) (script_data : Option ScriptData) :
    Action H (Option V8_Script) :=
  let ctx := engine
  ISOLATE_SCOPE ctx.GetIsolate (fun isolate =>
    let local_context := Local_New isolate ctx.self
    Context_Scope local_context (fun w =>
      let script := engineCall EngineCall.ScriptNew w
        (E.ScriptNew w.heap w.guard (String_NewFromOneByte isolate code length)
          script_origin script_data none)
      if script.1.isNone then (none, script.2)
      else Prod.map some id (V8_Script.construct isolate script.1 script.2)))

/-- The exported function `V8_DisposeScript`. -/
def V8_DisposeScript (script : V8_Script) : Action H Unit :=
  V8_Script.destruct script

/-- The exported function `V8_RunScript`. -/
def V8_RunScript (E : Engine H) (context : V8_Context) (script : V8_Script) :
    Action H (Option V8_Value) :=
  let ctx := context
  let spt := script
  ISOLATE_SCOPE ctx.GetIsolate (fun isolate =>
    let local_context := Local_New isolate ctx.self
    let local_script := Local_New isolate spt.self
    Context_Scope local_context (fun w =>
      let result := engineCall EngineCall.Run w (E.ScriptRun w.heap w.guard local_script)
      if result.1.isNone then (none, result.2)
      else Prod.map some id (V8_Value.construct isolate local_context result.1 result.2)))

/-! ## Script data and script origin wrappers -/

/-- The exported function `V8_PreCompile`. -/
def V8_PreCompile (E : Engine H) (engine : V8_Context) (code : List Nat) (length : Int) :
    Action H (Option ScriptData) :=
  let ctx := engine
  ISOLATE_SCOPE ctx.GetIsolate (fun isolate w =>
    engineCall EngineCall.PreCompile w
      (E.PreCompile w.heap w.guard (String_NewFromOneByte isolate code length)))

/-- The exported function `V8_NewScriptData`: no isolate is involved. -/
def V8_NewScriptData (E : Engine H) (data : List Nat) (length : Int) :
    Action H (Option ScriptData) := fun w =>
  let r := E.ScriptDataNew w.heap data length
  (r.1, w.setHeap r.2)

/-- The exported function `V8_DisposeScriptData`. -/
def V8_DisposeScriptData (E : Engine H) (script_data : Option ScriptData) :
    Action H Unit := fun w =>
  ((), w.setHeap (E.ScriptDataDelete w.heap script_data))

/-- The exported function `V8_ScriptDataLength`. -/
def V8_ScriptDataLength (E : Engine H) (script_data : ScriptData) : Action H Int := fun w =>
  (E.ScriptDataLength w.heap script_data, w)

/-- The exported function `V8_ScriptDataGetData`. -/
def V8_ScriptDataGetData (E : Engine H) (script_data : ScriptData) :
    Action H (List Nat) := fun w =>
  (E.ScriptDataData w.heap script_data, w)

/-- The exported function `V8_ScriptDataHasError`. -/
def V8_ScriptDataHasError (E : Engine H) (script_data : ScriptData) : Action H Int := fun w =>
  (bool_to_int (E.ScriptDataHasError w.heap script_data), w)

/-- The exported function `V8_NewScriptOrigin`.  As in the source, both offsets passed to
the `ScriptOrigin` constructor are made from `line_offset`. -/
def V8_NewScriptOrigin (engine : V8_Context) (name : List Nat) (name_length : Int)
    (line_offset : Int) (_column_offset : Int) : Action H ScriptOrigin :=
  let ctx := engine
  ISOLATE_SCOPE ctx.GetIsolate (fun isolate w =>
    ({ resource_name := String_NewFromOneByte isolate name name_length,
       resource_line_offset := Integer_New line_offset,
       resource_column_offset := Integer_New line_offset }, w))

/-- The exported function `V8_DisposeScriptOrigin`: frees the record, nothing else. -/
def V8_DisposeScriptOrigin (_script_origin : Option ScriptOrigin) : Action H Unit := fun w =>
  ((), w)

/-! ## Value wrappers -/

/-- The exported function `V8_DisposeValue`. -/
def V8_DisposeValue (value : V8_Value) : Action H Unit :=
  V8_Value.destruct value

/-- The exported function `V8_ValueToString`: convert, allocate length + 1 bytes, write. -/
def V8_ValueToString (E : Engine H) (value : V8_Value) : Action H (List Nat) :=
  VALUE_TO_LOCAL value (fun _isolate local_value w =>
    let string := engineCall EngineCall.ToString w
      (Value_ToString E w.heap w.guard local_value)
    let str := malloc E (String_Length E string.1 + 1)
    (String_WriteOneByte E string.1 str, string.2))

/-- The exported function `V8_ValueIsUndefined`. -/
def V8_ValueIsUndefined (E : Engine H) (value : V8_Value) : Action H Int :=
  VALUE_TO_LOCAL value (fun _isolate local_value w =>
    Prod.map bool_to_int id
      (engineQuery (EngineCall.Is Pred.IsUndefined) w (Value_Is E w.heap Pred.IsUndefined local_value)))

/-- The exported function `V8_ValueIsNull`. -/
def V8_ValueIsNull (E : Engine H) (value : V8_Value) : Action H Int :=
  VALUE_TO_LOCAL value (fun _isolate local_value w =>
    Prod.map bool_to_int id
      (engineQuery (EngineCall.Is Pred.IsNull) w (Value_Is E w.heap Pred.IsNull local_value)))

/-- The exported function `V8_ValueIsTrue`. -/
def V8_ValueIsTrue (E : Engine H) (value : V8_Value) : Action H Int :=
  VALUE_TO_LOCAL value (fun _isolate local_value w =>
    Prod.map bool_to_int id
      (engineQuery (EngineCall.Is Pred.IsTrue) w (Value_Is E w.heap Pred.IsTrue local_value)))

/-- The exported function `V8_ValueIsFalse`. -/
def V8_ValueIsFalse (E : Engine H) (value : V8_Value) : Action H Int :=
  VALUE_TO_LOCAL value (fun _isolate local_value w =>
    Prod.map bool_to_int id
      (engineQuery (EngineCall.Is Pred.IsFalse) w (Value_Is E w.heap Pred.IsFalse local_value)))

/-- The exported function `V8_ValueIsString`. -/
def V8_ValueIsString (E : Engine H) (value : V8_Value) : Action H Int :=
  VALUE_TO_LOCAL value (fun _isolate local_value w =>
    Prod.map bool_to_int id
      (engineQuery (EngineCall.Is Pred.IsString) w (Value_Is E w.heap Pred.IsString local_value)))

/-- The exported function `V8_ValueIsFunction`. -/
def V8_ValueIsFunction (E : Engine H) (value : V8_Value) : Action H Int :=
  VALUE_TO_LOCAL value (fun _isolate local_value w =>
    Prod.map bool_to_int id
      (engineQuery (EngineCall.Is Pred.IsFunction) w (Value_Is E w.heap Pred.IsFunction local_value)))

/-- The exported function `V8_ValueIsArray`. -/
def V8_ValueIsArray (E : Engine H) (value : V8_Value) : Action H Int :=
  VALUE_TO_LOCAL value (fun _isolate local_value w =>
    Prod.map bool_to_int id
      (engineQuery (EngineCall.Is Pred.IsArray) w (Value_Is E w.heap Pred.IsArray local_value)))

/-- The exported function `V8_ValueIsObject`. -/
def V8_ValueIsObject (E : Engine H) (value : V8_Value) : Action H Int :=
  VALUE_TO_LOCAL value (fun _isolate local_value w =>
    Prod.map bool_to_int id
      (engineQuery (EngineCall.Is Pred.IsObject) w (Value_Is E w.heap Pred.IsObject local_value)))

/-- The exported function `V8_ValueIsBoolean`. -/
def V8_ValueIsBoolean (E : Engine H) (value : V8_Value) : Action H Int :=
  VALUE_TO_LOCAL value (fun _isolate local_value w =>
    Prod.map bool_to_int id
      (engineQuery (EngineCall.Is Pred.IsBoolean) w (Value_Is E w.heap Pred.IsBoolean local_value)))

/-- The exported function `V8_ValueIsNumber`. -/
def V8_ValueIsNumber (E : Engine H) (value : V8_Value) : Action H Int :=
  VALUE_TO_LOCAL value (fun _isolate local_value w =>
    Prod.map bool_to_int id
      (engineQuery (EngineCall.Is Pred.IsNumber) w (Value_Is E w.heap Pred.IsNumber local_value)))

/-- The exported function `V8_ValueIsExternal`. -/
def V8_ValueIsExternal (E : Engine H) (value : V8_Value) : Action H Int :=
  VALUE_TO_LOCAL value (fun _isolate local_value w =>
    Prod.map bool_to_int id
      (engineQuery (EngineCall.Is Pred.IsExternal) w (Value_Is E w.heap Pred.IsExternal local_value)))

/-- The exported function `V8_ValueIsInt32`. -/
def V8_ValueIsInt32 (E : Engine H) (value : V8_Value) : Action H Int :=
  VALUE_TO_LOCAL value (fun _isolate local_value w =>
    Prod.map bool_to_int id
      (engineQuery (EngineCall.Is Pred.IsInt32) w (Value_Is E w.heap Pred.IsInt32 local_value)))

/-- The exported function `V8_ValueIsUint32`. -/
def V8_ValueIsUint32 (E : Engine H) (value : V8_Value) : Action H Int :=
  VALUE_TO_LOCAL value (fun _isolate local_value w =>
    Prod.map bool_to_int id
      (engineQuery (EngineCall.Is Pred.IsUint32) w (Value_Is E w.heap Pred.IsUint32 local_value)))

/-- The exported function `V8_ValueIsDate`. -/
def V8_ValueIsDate (E : Engine H) (value : V8_Value) : Action H Int :=
  VALUE_TO_LOCAL value (fun _isolate local_value w =>
    Prod.map bool_to_int id
      (engineQuery (EngineCall.Is Pred.IsDate) w (Value_Is E w.heap Pred.IsDate local_value)))

/-- The exported function `V8_ValueIsBooleanObject`. -/
def V8_ValueIsBooleanObject (E : Engine H) (value : V8_Value) : Action H Int :=
  VALUE_TO_LOCAL value (fun _isolate local_value w =>
    Prod.map bool_to_int id
      (engineQuery (EngineCall.Is Pred.IsBooleanObject) w (Value_Is E w.heap Pred.IsBooleanObject local_value)))

/-- The exported function `V8_ValueIsNumberObject`. -/
def V8_ValueIsNumberObject (E : Engine H) (value : V8_Value) : Action H Int :=
  VALUE_TO_LOCAL value (fun _isolate local_value w =>
    Prod.map bool_to_int id
      (engineQuery (EngineCall.Is Pred.IsNumberObject) w (Value_Is E w.heap Pred.IsNumberObject local_value)))

/-- The exported function `V8_ValueIsStringObject`. -/
def V8_ValueIsStringObject (E : Engine H) (value : V8_Value) : Action H Int :=
  VALUE_TO_LOCAL value (fun _isolate local_value w =>
    Prod.map bool_to_int id
      (engineQuery (EngineCall.Is Pred.IsStringObject) w (Value_Is E w.heap Pred.IsStringObject local_value)))

/-- The exported function `V8_ValueIsNativeError`. -/
def V8_ValueIsNativeError (E : Engine H) (value : V8_Value) : Action H Int :=
  VALUE_TO_LOCAL value (fun _isolate local_value w =>
    Prod.map bool_to_int id
      (engineQuery (EngineCall.Is Pred.IsNativeError) w (Value_Is E w.heap Pred.IsNativeError local_value)))

/-- The exported function `V8_ValueIsRegExp`. -/
def V8_ValueIsRegExp (E : Engine H) (value : V8_Value) : Action H Int :=
  VALUE_TO_LOCAL value (fun _isolate local_value w =>
    Prod.map bool_to_int id
      (engineQuery (EngineCall.Is Pred.IsRegExp) w (Value_Is E w.heap Pred.IsRegExp local_value)))

/-! ## Special values, conversions, constructors -/

/-- The exported function `V8_Undefined`. -/
def V8_Undefined (engine : V8_Context) : Action H V8_Value :=
  let ctx := engine
  ISOLATE_SCOPE ctx.GetIsolate (fun isolate =>
    V8_Value.construct isolate (none : Handle Context) (Undefined isolate))

/-- The exported function `V8_Null`. -/
def V8_Null (engine : V8_Context) : Action H V8_Value :=
  let ctx := engine
  ISOLATE_SCOPE ctx.GetIsolate (fun isolate =>
    V8_Value.construct isolate (none : Handle Context) (Null isolate))

/-- The exported function `V8_True`. -/
def V8_True (engine : V8_Context) : Action H V8_Value :=
  let ctx := engine
  ISOLATE_SCOPE ctx.GetIsolate (fun isolate =>
    V8_Value.construct isolate (none : Handle Context) (True_ isolate))

/-- The exported function `V8_False`. -/
def V8_False (engine : V8_Context) : Action H V8_Value :=
  let ctx := engine
  ISOLATE_SCOPE ctx.GetIsolate (fun isolate =>
    V8_Value.construct isolate (none : Handle Context) (False_ isolate))

/-- The exported function `V8_ValueToBoolean`. -/
def V8_ValueToBoolean (E : Engine H) (value : V8_Value) : Action H Int :=
  VALUE_TO_LOCAL value (fun _isolate local_value w =>
    Prod.map bool_to_int id
      (engineCall EngineCall.BooleanValue w (E.BooleanValue w.heap w.guard local_value)))

/-- The exported function `V8_ValueToNumber`. -/
def V8_ValueToNumber (E : Engine H) (value : V8_Value) : Action H Double :=
  VALUE_TO_LOCAL value (fun _isolate local_value w =>
    engineCall EngineCall.NumberValue w (E.NumberValue w.heap w.guard local_value))

/-- The exported function `V8_ValueToInteger`. -/
def V8_ValueToInteger (E : Engine H) (value : V8_Value) : Action H Int :=
  VALUE_TO_LOCAL value (fun _isolate local_value w =>
    engineCall EngineCall.IntegerValue w (E.IntegerValue w.heap w.guard local_value))

/-- The exported function `V8_ValueToUint32`. -/
def V8_ValueToUint32 (E : Engine H) (value : V8_Value) : Action H Nat :=
  VALUE_TO_LOCAL value (fun _isolate local_value w =>
    engineCall EngineCall.Uint32Value w (E.Uint32Value w.heap w.guard local_value))

/-- The exported function `V8_ValueToInt32`. -/
def V8_ValueToInt32 (E : Engine H) (value : V8_Value) : Action H Int :=
  VALUE_TO_LOCAL value (fun _isolate local_value w =>
    engineCall EngineCall.Int32Value w (E.Int32Value w.heap w.guard local_value))

/-- The exported function `V8_NewNumber`. -/
def V8_NewNumber (context : V8_Context) (val : Double) : Action H V8_Value :=
  let ctx := context
  ISOLATE_SCOPE ctx.GetIsolate (fun isolate =>
    let local_context := Local_New isolate ctx.self
    V8_Value.construct isolate local_context (Number_New isolate val))

/-- The exported function `V8_NewString`. -/
def V8_NewString (context : V8_Context) (val : List Nat) (val_length : Int) :
    Action H V8_Value :=
  let ctx := context
  ISOLATE_SCOPE ctx.GetIsolate (fun isolate =>
    let local_context := Local_New isolate ctx.self
    V8_Value.construct isolate local_context (String_NewFromOneByte isolate val val_length))

/-! ## Object wrappers -/

/-- The exported function `V8_SetProperty`. -/
def V8_SetProperty (E : Engine H) (value : V8_Value) (key : List Nat) (key_length : Int)
    (prop_value : V8_Value) (attribs : Int) : Action H Int :=
  VALUE_SCOPE value (fun isolate _context local_value w =>
    Prod.map bool_to_int id
      (engineCall EngineCall.Set w
        (E.Set w.heap w.guard local_value (String_NewFromOneByte isolate key key_length)
          (Local_New isolate prop_value.self) attribs)))

/-- The exported function `V8_GetProperty`: the result is wrapped unchecked. -/
def V8_GetProperty (E : Engine H) (value : V8_Value) (key : List Nat) (key_length : Int) :
    Action H V8_Value :=
  VALUE_SCOPE value (fun isolate context local_value w =>
    let got := engineCall EngineCall.Get w
      (E.Get w.heap w.guard local_value (String_NewFromOneByte isolate key key_length))
    V8_Value.construct isolate context got.1 got.2)

/-- The exported function `V8_SetElement`. -/
def V8_SetElement (E : Engine H) (value : V8_Value) (index : Nat) (elem_value : V8_Value) :
    Action H Int :=
  VALUE_SCOPE value (fun isolate _context local_value w =>
    Prod.map bool_to_int id
      (engineCall EngineCall.SetIndex w
        (E.SetIndex w.heap w.guard local_value index (Local_New isolate elem_value.self))))

/-- The exported function `V8_GetElement`. -/
def V8_GetElement (E : Engine H) (value : V8_Value) (index : Nat) : Action H V8_Value :=
  VALUE_SCOPE value (fun isolate context local_value w =>
    let got := engineCall EngineCall.GetIndex w (E.GetIndex w.heap w.guard local_value index)
    V8_Value.construct isolate context got.1 got.2)

/-- The exported function `V8_GetPropertyAttributes`. -/
def V8_GetPropertyAttributes (E : Engine H) (value : V8_Value) (key : List Nat)
    (key_length : Int) : Action H Int :=
  VALUE_SCOPE value (fun isolate _context local_value w =>
    engineCall EngineCall.GetPropertyAttributes w
      (E.GetPropertyAttributes w.heap w.guard local_value
        (String_NewFromOneByte isolate key key_length)))

/-- The exported function `V8_ForceSetProperty`. -/
def V8_ForceSetProperty (E : Engine H) (value : V8_Value) (key : List Nat) (key_length : Int)
    (prop_value : V8_Value) (attribs : Int) : Action H Int :=
  VALUE_SCOPE value (fun isolate _context local_value w =>
    Prod.map bool_to_int id
      (engineCall EngineCall.ForceSet w
        (E.ForceSet w.heap w.guard local_value (String_NewFromOneByte isolate key key_length)
          (Local_New isolate prop_value.self) attribs)))

/-- The exported function `V8_HasProperty`. -/
def V8_HasProperty (E : Engine H) (value : V8_Value) (key : List Nat) (key_length : Int) :
    Action H Int :=
  VALUE_SCOPE value (fun isolate _context local_value w =>
    Prod.map bool_to_int id
      (engineCall EngineCall.Has w
        (E.Has w.heap w.guard local_value (String_NewFromOneByte isolate key key_length))))

/-- The exported function `V8_DeleteProperty`. -/
def V8_DeleteProperty (E : Engine H) (value : V8_Value) (key : List Nat) (key_length : Int) :
    Action H Int :=
  VALUE_SCOPE value (fun isolate _context local_value w =>
    Prod.map bool_to_int id
      (engineCall EngineCall.Delete w
        (E.Delete w.heap w.guard local_value (String_NewFromOneByte isolate key key_length))))

/-- The exported function `V8_ForceDeleteProperty`. -/
def V8_ForceDeleteProperty (E : Engine H) (value : V8_Value) (key : List Nat) (key_length : Int) :
    Action H Int :=
  VALUE_SCOPE value (fun isolate _context local_value w =>
    Prod.map bool_to_int id
      (engineCall EngineCall.ForceDelete w
        (E.ForceDelete w.heap w.guard local_value (String_NewFromOneByte isolate key key_length))))

/-- The exported function `V8_HasElement`. -/
def V8_HasElement (E : Engine H) (value : V8_Value) (index : Nat) : Action H Int :=
  VALUE_SCOPE value (fun _isolate _context local_value w =>
    Prod.map bool_to_int id
      (engineCall EngineCall.HasIndex w (E.HasIndex w.heap w.guard local_value index)))

/-- The exported function `V8_DeleteElement`. -/
def V8_DeleteElement (E : Engine H) (value : V8_Value) (index : Nat) : Action H Int :=
  VALUE_SCOPE value (fun _isolate _context local_value w =>
    Prod.map bool_to_int id
      (engineCall EngineCall.DeleteIndex w (E.DeleteIndex w.heap w.guard local_value index)))

/-- The exported function `V8_ArrayLength`: it uses `VALUE_TO_LOCAL`, not `VALUE_SCOPE`. -/
def V8_ArrayLength (E : Engine H) (value : V8_Value) : Action H Int :=
  VALUE_TO_LOCAL value (fun _isolate local_value w =>
    Prod.map uint32_to_int id
      (engineQuery EngineCall.Length w (E.Length w.heap local_value)))

/-! ## The exported interface as a whole -/

/-- The classification function of the exported interface that belongs to a method. -/
def V8_ValueIs (E : Engine H) (p : Pred) (value : V8_Value) : Action H Int :=
  match p with
  | Pred.IsUndefined => V8_ValueIsUndefined E value
  | Pred.IsNull => V8_ValueIsNull E value
  | Pred.IsTrue => V8_ValueIsTrue E value
  | Pred.IsFalse => V8_ValueIsFalse E value
  | Pred.IsString => V8_ValueIsString E value
  | Pred.IsFunction => V8_ValueIsFunction E value
  | Pred.IsArray => V8_ValueIsArray E value
  | Pred.IsObject => V8_ValueIsObject E value
  | Pred.IsBoolean => V8_ValueIsBoolean E value
  | Pred.IsNumber => V8_ValueIsNumber E value
  | Pred.IsExternal => V8_ValueIsExternal E value
  | Pred.IsInt32 => V8_ValueIsInt32 E value
  | Pred.IsUint32 => V8_ValueIsUint32 E value
  | Pred.IsDate => V8_ValueIsDate E value
  | Pred.IsBooleanObject => V8_ValueIsBooleanObject E value
  | Pred.IsNumberObject => V8_ValueIsNumberObject E value
  | Pred.IsStringObject => V8_ValueIsStringObject E value
  | Pred.IsNativeError => V8_ValueIsNativeError E value
  | Pred.IsRegExp => V8_ValueIsRegExp E value

end Model

/-- One call of an exported function, with its arguments. -/
inductive Call where
  | NewEngine
  | DisposeEngine (engine : V8_Context)
  | NewContext (engine : V8_Context)
  | DisposeContext (context : V8_Context)
  | Compile (engine : V8_Context) (code : List Nat) (length : Int)
      (script_origin : Option ScriptOrigin) (script_data : Option ScriptData)
  | DisposeScript (script : V8_Script)
  | RunScript (context : V8_Context) (script : V8_Script)
  | PreCompile (engine : V8_Context) (code : List Nat) (length : Int)
  | NewScriptData (data : List Nat) (length : Int)
  | DisposeScriptData (script_data : Option ScriptData)
  | ScriptDataLength (script_data : ScriptData)
  | ScriptDataGetData (script_data : ScriptData)
  | ScriptDataHasError (script_data : ScriptData)
  | NewScriptOrigin (engine : V8_Context) (name : List Nat) (name_length : Int)
      (line_offset : Int) (column_offset : Int)
  | DisposeScriptOrigin (script_origin : Option ScriptOrigin)
  | DisposeValue (value : V8_Value)
  | ValueToString (value : V8_Value)
  | ValueIs (p : Pred) (value : V8_Value)
  | Undefined (engine : V8_Context)
  | Null (engine : V8_Context)
  | True_ (engine : V8_Context)
  | False_ (engine : V8_Context)
  | ValueToBoolean (value : V8_Value)
  | ValueToNumber (value : V8_Value)
  | ValueToInteger (value : V8_Value)
  | ValueToUint32 (value : V8_Value)
  | ValueToInt32 (value : V8_Value)
  | NewNumber (context : V8_Context) (val : Double)
  | NewString (context : V8_Context) (val : List Nat) (val_length : Int)
  | SetProperty (value : V8_Value) (key : List Nat) (key_length : Int)
      (prop_value : V8_Value) (attribs : Int)
  | GetProperty (value : V8_Value) (key : List Nat) (key_length : Int)
  | SetElement (value : V8_Value) (index : Nat) (elem_value : V8_Value)
  | GetElement (value : V8_Value) (index : Nat)
  | GetPropertyAttributes (value : V8_Value) (key : List Nat) (key_length : Int)
  | ForceSetProperty (value : V8_Value) (key : List Nat) (key_length : Int)
      (prop_value : V8_Value) (attribs : Int)
  | HasProperty (value : V8_Value) (key : List Nat) (key_length : Int)
  | DeleteProperty (value : V8_Value) (key : List Nat) (key_length : Int)
  | ForceDeleteProperty (value : V8_Value) (key : List Nat) (key_length : Int)
  | HasElement (value : V8_Value) (index : Nat)
  | DeleteElement (value : V8_Value) (index : Nat)
  | ArrayLength (value : V8_Value)
  deriving DecidableEq, Repr

section Interface

variable {H : Type}

/-- The world after a call of an exported function (its result dropped). -/
def Call.run (E : Engine H) (call : Call) (w : World H) : World H :=
  match call with
  | .NewEngine => (V8_NewEngine E w).2
  | .DisposeEngine engine => (V8_DisposeEngine E engine w).2
  | .NewContext engine => (V8_NewContext E engine w).2
  | .DisposeContext context => (V8_DisposeContext context w).2
  | .Compile engine code length script_origin script_data =>
      (V8_Compile E engine code length script_origin script_data w).2
  | .DisposeScript script => (V8_DisposeScript script w).2
  | .RunScript context script => (V8_RunScript E context script w).2
  | .PreCompile engine code length => (V8_PreCompile E engine code length w).2
  | .NewScriptData data length => (V8_NewScriptData E data length w).2
  | .DisposeScriptData script_data => (V8_DisposeScriptData E script_data w).2
  | .ScriptDataLength script_data => (V8_ScriptDataLength E script_data w).2
  | .ScriptDataGetData script_data => (V8_ScriptDataGetData E script_data w).2
  | .ScriptDataHasError script_data => (V8_ScriptDataHasError E script_data w).2
  | .NewScriptOrigin engine name name_length line_offset column_offset =>
      (V8_NewScriptOrigin engine name name_length line_offset column_offset w).2
  | .DisposeScriptOrigin script_origin => (V8_DisposeScriptOrigin script_origin w).2
  | .DisposeValue value => (V8_DisposeValue value w).2
  | .ValueToString value => (V8_ValueToString E value w).2
  | .ValueIs p value => (V8_ValueIs E p value w).2
  | .Undefined engine => (V8_Undefined engine w).2
  | .Null engine => (V8_Null engine w).2
  | .True_ engine => (V8_True engine w).2
  | .False_ engine => (V8_False engine w).2
  | .ValueToBoolean value => (V8_ValueToBoolean E value w).2
  | .ValueToNumber value => (V8_ValueToNumber E value w).2
  | .ValueToInteger value => (V8_ValueToInteger E value w).2
  | .ValueToUint32 value => (V8_ValueToUint32 E value w).2
  | .ValueToInt32 value => (V8_ValueToInt32 E value w).2
  | .NewNumber context val => (V8_NewNumber context val w).2
  | .NewString context val val_length => (V8_NewString context val val_length w).2
  | .SetProperty value key key_length prop_value attribs =>
      (V8_SetProperty E value key key_length prop_value attribs w).2
  | .GetProperty value key key_length => (V8_GetProperty E value key key_length w).2
  | .SetElement value index elem_value => (V8_SetElement E value index elem_value w).2
  | .GetElement value index => (V8_GetElement E value index w).2
  | .GetPropertyAttributes value key key_length =>
      (V8_GetPropertyAttributes E value key key_length w).2
  | .ForceSetProperty value key key_length prop_value attribs =>
      (V8_ForceSetProperty E value key key_length prop_value attribs w).2
  | .HasProperty value key key_length => (V8_HasProperty E value key key_length w).2
  | .DeleteProperty value key key_length => (V8_DeleteProperty E value key key_length w).2
  | .ForceDeleteProperty value key key_length =>
      (V8_ForceDeleteProperty E value key key_length w).2
  | .HasElement value index => (V8_HasElement E value index w).2
  | .DeleteElement value index => (V8_DeleteElement E value index w).2
  | .ArrayLength value => (V8_ArrayLength E value w).2

/-- The events a step from `w` to `w2` appended to the log. -/
def traceBetween (w w2 : World H) : List Event := w2.log.drop w.log.length

/-- The events an action appends to the log when run in `w`. -/
def traceOf {α : Type} (a : Action H α) (w : World H) : List Event :=
  traceBetween w (a w).2

end Interface

/-- A small concrete engine over a counter heap: every allocation takes the next number,
every query has a fixed answer.  It instantiates the theorems below. -/
def demoEngine : Engine Nat where
  IsolateNew h := (h, h + 1)
  IsolateDispose h _ := h
  ContextNew h _ _ := (some (h + 10), h + 1)
  ScriptNew h _ _ _ _ _ := (some (h + 20), h + 1)
  ScriptRun h _ s := (s.map (fun k => Value.heap k), h + 1)
  PreCompile h _ _ := (some h, h + 1)
  ScriptDataNew h _ _ := (some h, h + 1)
  ScriptDataDelete h _ := h
  ScriptDataLength _ _ := 0
  ScriptDataData _ _ := []
  ScriptDataHasError _ _ := false
  Is _ _ _ := false
  ToString h _ _ := (some [], h)
  LengthOfEmpty := 0
  WriteOneByteOfEmpty b := b
  BooleanValue h _ _ := (false, h)
  NumberValue h _ _ := (0, h)
  IntegerValue h _ _ := (0, h)
  Uint32Value h _ _ := (0, h)
  Int32Value h _ _ := (0, h)
  Set h _ _ _ _ _ := (true, h + 1)
  Get h _ _ _ := (some (Value.heap h), h)
  SetIndex h _ _ _ _ := (true, h + 1)
  GetIndex h _ _ _ := (some (Value.heap h), h)
  GetPropertyAttributes h _ _ _ := (0, h)
  ForceSet h _ _ _ _ _ := (true, h + 1)
  Has h _ _ _ := (true, h)
  Delete h _ _ _ := (true, h + 1)
  ForceDelete h _ _ _ := (true, h + 1)
  HasIndex h _ _ _ := (true, h)
  DeleteIndex h _ _ _ := (true, h + 1)
  Length _ _ := 3
  uninit _ := 170

/-- The empty world the examples start from: heap counter 0, no guard alive, empty log. -/
def demoWorld : World Nat :=
  { heap := 0, guard := { locks := [], entered := [], scopes := [], contexts := [] }, log := [] }

section Traces

variable {H : Type}

/-- The world inside `ISOLATE_SCOPE(i)`: locker, isolate scope and handle scope are alive. -/
def isolateEntered (w : World H) (i : Isolate) : World H :=
  ((w.emit (Event.lock i)).emit (Event.enterIsolate i)).emit (Event.openHandleScope i)

/-- The world inside `ISOLATE_SCOPE(i)` followed by `Context::Scope(c)`. -/
def contextEntered (w : World H) (i : Isolate) (c : Handle Context) : World H :=
  (isolateEntered w i).emit (Event.enterContext c)

/-- The world in which `V8_NewEngine` asks for the default context: the new isolate exists
and is entered. -/
def newIsolateEntered (E : Engine H) (w : World H) : World H :=
  isolateEntered ((w.setHeap (E.IsolateNew w.heap).2).emit
    (Event.isolateNew (E.IsolateNew w.heap).1)) (E.IsolateNew w.heap).1

/-- The events of a body run at isolate level: lock, isolate and handle scope are taken
in this order before it and given back in the reverse order after it. -/
def isolateBracket (i : Isolate) (t : List Event) : List Event :=
  [Event.lock i, Event.enterIsolate i, Event.openHandleScope i] ++ t ++
    [Event.closeHandleScope i, Event.exitIsolate i, Event.unlock i]

/-- The events of a body run inside an entered context. -/
def contextBracket (c : Handle Context) (t : List Event) : List Event :=
  [Event.enterContext c] ++ t ++ [Event.exitContext c]

/-- The events of a destructor body: lock and isolate scope only, no handle scope. -/
def lockBracket (i : Isolate) (t : List Event) : List Event :=
  [Event.lock i, Event.enterIsolate i] ++ t ++ [Event.exitIsolate i, Event.unlock i]

/-- The events of constructing a `V8_Value` record. -/
def valueResets (i : Isolate) (c : Handle Context) (v : Handle Value) : List Event :=
  [Event.persistentReset i (Ref.value v), Event.persistentReset i (Ref.context c)]

/-- The events each call is expected to append to the log, written out call by call.
`Call.run_stepped` below proves that the code appends exactly these. -/
def Call.trace (E : Engine H) (w : World H) : Call → List Event
  | .NewEngine =>
      Event.isolateNew (E.IsolateNew w.heap).1 ::
        isolateBracket (E.IsolateNew w.heap).1
          (Event.engine EngineCall.ContextNew ::
            (if (E.ContextNew (newIsolateEntered E w).heap (newIsolateEntered E w).guard
                  (E.IsolateNew w.heap).1).1.isNone then []
             else [Event.persistentReset (E.IsolateNew w.heap).1
                    (Ref.context (E.ContextNew (newIsolateEntered E w).heap
                      (newIsolateEntered E w).guard (E.IsolateNew w.heap).1).1)]))
  | .DisposeEngine engine =>
      lockBracket engine.isolate_
        [Event.persistentDispose (Ref.context engine.self),
         Event.persistentClear (Ref.context none)] ++ [Event.isolateDispose engine.isolate_]
  | .NewContext engine =>
      isolateBracket engine.isolate_
        (Event.engine EngineCall.ContextNew ::
          (if (E.ContextNew (isolateEntered w engine.isolate_).heap
                (isolateEntered w engine.isolate_).guard engine.isolate_).1.isNone then []
           else [Event.persistentReset engine.isolate_
                  (Ref.context (E.ContextNew (isolateEntered w engine.isolate_).heap
                    (isolateEntered w engine.isolate_).guard engine.isolate_).1)]))
  | .DisposeContext context =>
      lockBracket context.isolate_
        [Event.persistentDispose (Ref.context context.self),
         Event.persistentClear (Ref.context none)]
  | .Compile engine code length script_origin script_data =>
      isolateBracket engine.isolate_ (contextBracket engine.self
        (Event.engine EngineCall.ScriptNew ::
          (if (E.ScriptNew (contextEntered w engine.isolate_ engine.self).heap
                (contextEntered w engine.isolate_ engine.self).guard
                (String_NewFromOneByte engine.isolate_ code length)
                script_origin script_data none).1.isNone then []
           else [Event.persistentReset engine.isolate_
                  (Ref.script (E.ScriptNew (contextEntered w engine.isolate_ engine.self).heap
                    (contextEntered w engine.isolate_ engine.self).guard
                    (String_NewFromOneByte engine.isolate_ code length)
                    script_origin script_data none).1)])))
  | .DisposeScript script =>
      lockBracket script.isolate_
        [Event.persistentDispose (Ref.script script.self),
         Event.persistentClear (Ref.script none)]
  | .RunScript context script =>
      isolateBracket context.isolate_ (contextBracket context.self
        (Event.engine EngineCall.Run ::
          (if (E.ScriptRun (contextEntered w context.isolate_ context.self).heap
                (contextEntered w context.isolate_ context.self).guard script.self).1.isNone
           then []
           else valueResets context.isolate_ context.self
                  (E.ScriptRun (contextEntered w context.isolate_ context.self).heap
                    (contextEntered w context.isolate_ context.self).guard script.self).1)))
  | .PreCompile engine _ _ => isolateBracket engine.isolate_ [Event.engine EngineCall.PreCompile]
  | .NewScriptData _ _ => []
  | .DisposeScriptData _ => []
  | .ScriptDataLength _ => []
  | .ScriptDataGetData _ => []
  | .ScriptDataHasError _ => []
  | .NewScriptOrigin engine _ _ _ _ => isolateBracket engine.isolate_ []
  | .DisposeScriptOrigin _ => []
  | .DisposeValue value =>
      lockBracket value.isolate_
        [Event.persistentDispose (Ref.value value.self), Event.persistentClear (Ref.value none),
         Event.persistentDispose (Ref.context value.context),
         Event.persistentClear (Ref.context none)]
  | .ValueToString value => isolateBracket value.isolate_ [Event.engine EngineCall.ToString]
  | .ValueIs p value => isolateBracket value.isolate_ [Event.engine (EngineCall.Is p)]
  | .Undefined engine =>
      isolateBracket engine.isolate_ (valueResets engine.isolate_ none (V8Wrap.Undefined engine.isolate_))
  | .Null engine =>
      isolateBracket engine.isolate_ (valueResets engine.isolate_ none (V8Wrap.Null engine.isolate_))
  | .True_ engine =>
      isolateBracket engine.isolate_ (valueResets engine.isolate_ none (V8Wrap.True_ engine.isolate_))
  | .False_ engine =>
      isolateBracket engine.isolate_ (valueResets engine.isolate_ none (V8Wrap.False_ engine.isolate_))
  | .ValueToBoolean value =>
      isolateBracket value.isolate_ [Event.engine EngineCall.BooleanValue]
  | .ValueToNumber value => isolateBracket value.isolate_ [Event.engine EngineCall.NumberValue]
  | .ValueToInteger value => isolateBracket value.isolate_ [Event.engine EngineCall.IntegerValue]
  | .ValueToUint32 value => isolateBracket value.isolate_ [Event.engine EngineCall.Uint32Value]
  | .ValueToInt32 value => isolateBracket value.isolate_ [Event.engine EngineCall.Int32Value]
  | .NewNumber context val =>
      isolateBracket context.isolate_
        (valueResets context.isolate_ context.self (Number_New context.isolate_ val))
  | .NewString context val val_length =>
      isolateBracket context.isolate_
        (valueResets context.isolate_ context.self
          (String_NewFromOneByte context.isolate_ val val_length))
  | .SetProperty value _ _ _ _ =>
      isolateBracket value.isolate_ (contextBracket value.context [Event.engine EngineCall.Set])
  | .GetProperty value key key_length =>
      isolateBracket value.isolate_ (contextBracket value.context
        (Event.engine EngineCall.Get ::
          valueResets value.isolate_ value.context
            (E.Get (contextEntered w value.isolate_ value.context).heap
              (contextEntered w value.isolate_ value.context).guard value.self
              (String_NewFromOneByte value.isolate_ key key_length)).1))
  | .SetElement value _ _ =>
      isolateBracket value.isolate_
        (contextBracket value.context [Event.engine EngineCall.SetIndex])
  | .GetElement value index =>
      isolateBracket value.isolate_ (contextBracket value.context
        (Event.engine EngineCall.GetIndex ::
          valueResets value.isolate_ value.context
            (E.GetIndex (contextEntered w value.isolate_ value.context).heap
              (contextEntered w value.isolate_ value.context).guard value.self index).1))
  | .GetPropertyAttributes value _ _ =>
      isolateBracket value.isolate_
        (contextBracket value.context [Event.engine EngineCall.GetPropertyAttributes])
  | .ForceSetProperty value _ _ _ _ =>
      isolateBracket value.isolate_
        (contextBracket value.context [Event.engine EngineCall.ForceSet])
  | .HasProperty value _ _ =>
      isolateBracket value.isolate_ (contextBracket value.context [Event.engine EngineCall.Has])
  | .DeleteProperty value _ _ =>
      isolateBracket value.isolate_
        (contextBracket value.context [Event.engine EngineCall.Delete])
  | .ForceDeleteProperty value _ _ =>
      isolateBracket value.isolate_
        (contextBracket value.context [Event.engine EngineCall.ForceDelete])
  | .HasElement value _ =>
      isolateBracket value.isolate_
        (contextBracket value.context [Event.engine EngineCall.HasIndex])
  | .DeleteElement value _ =>
      isolateBracket value.isolate_
        (contextBracket value.context [Event.engine EngineCall.DeleteIndex])
  | .ArrayLength value => isolateBracket value.isolate_ [Event.engine EngineCall.Length]

/-- The guard events: what the four RAII guards do; everything else is not one. -/
def Event.isGuard : Event → Bool
  | .lock _ => true
  | .unlock _ => true
  | .enterIsolate _ => true
  | .exitIsolate _ => true
  | .openHandleScope _ => true
  | .closeHandleScope _ => true
  | .enterContext _ => true
  | .exitContext _ => true
  | _ => false

/-- The guard events of a trace, in order. -/
def guardTrace (t : List Event) : List Event := t.filter Event.isGuard

/-- The contexts a trace enters, in order. -/
def contextEntries (t : List Event) : List (Handle Context) :=
  t.filterMap (fun e => match e with
    | Event.enterContext c => some c
    | _ => none)

/-- The isolates a trace disposes, in order. -/
def isolateDisposals (t : List Event) : List Isolate :=
  t.filterMap (fun e => match e with
    | Event.isolateDispose i => some i
    | _ => none)

/-- The trace re-enters the originating context of the receiver `v` after entering the
isolate and before performing the engine operation `op`: the three events occur in this
order. -/
def ReentersContext (v : V8_Value) (op : EngineCall) (t : List Event) : Prop :=
  [Event.enterIsolate v.isolate_, Event.enterContext v.context, Event.engine op] <+ t

/-- Isolate level of the scope guard, on the guard events `g` of a call: the first three
are lock, isolate entry and handle-scope opening, the last three give them back in the
reverse order. -/
def IsolateLevel (i : Isolate) (g : List Event) : Prop :=
  [Event.lock i, Event.enterIsolate i, Event.openHandleScope i] <+: g
    ∧ [Event.closeHandleScope i, Event.exitIsolate i, Event.unlock i] <:+ g

/-- The isolate whose references a call touches, if it touches any: the new isolate for
`V8_NewEngine`, the isolate of the first handle argument otherwise; none for the script
data functions and for freeing an origin descriptor. -/
def Call.isolate (E : Engine H) (w : World H) : Call → Option Isolate
  | .NewEngine => some (E.IsolateNew w.heap).1
  | .DisposeEngine engine => some engine.isolate_
  | .NewContext engine => some engine.isolate_
  | .DisposeContext context => some context.isolate_
  | .Compile engine _ _ _ _ => some engine.isolate_
  | .DisposeScript script => some script.isolate_
  | .RunScript context _ => some context.isolate_
  | .PreCompile engine _ _ => some engine.isolate_
  | .NewScriptData _ _ => none
  | .DisposeScriptData _ => none
  | .ScriptDataLength _ => none
  | .ScriptDataGetData _ => none
  | .ScriptDataHasError _ => none
  | .NewScriptOrigin engine _ _ _ _ => some engine.isolate_
  | .DisposeScriptOrigin _ => none
  | .DisposeValue value => some value.isolate_
  | .ValueToString value => some value.isolate_
  | .ValueIs _ value => some value.isolate_
  | .Undefined engine => some engine.isolate_
  | .Null engine => some engine.isolate_
  | .True_ engine => some engine.isolate_
  | .False_ engine => some engine.isolate_
  | .ValueToBoolean value => some value.isolate_
  | .ValueToNumber value => some value.isolate_
  | .ValueToInteger value => some value.isolate_
  | .ValueToUint32 value => some value.isolate_
  | .ValueToInt32 value => some value.isolate_
  | .NewNumber context _ => some context.isolate_
  | .NewString context _ _ => some context.isolate_
  | .SetProperty value _ _ _ _ => some value.isolate_
  | .GetProperty value _ _ => some value.isolate_
  | .SetElement value _ _ => some value.isolate_
  | .GetElement value _ => some value.isolate_
  | .GetPropertyAttributes value _ _ => some value.isolate_
  | .ForceSetProperty value _ _ _ _ => some value.isolate_
  | .HasProperty value _ _ => some value.isolate_
  | .DeleteProperty value _ _ => some value.isolate_
  | .ForceDeleteProperty value _ _ => some value.isolate_
  | .HasElement value _ => some value.isolate_
  | .DeleteElement value _ => some value.isolate_
  | .ArrayLength value => some value.isolate_

/-- The four disposal functions. -/
def Call.isDispose : Call → Bool
  | .DisposeEngine _ => true
  | .DisposeContext _ => true
  | .DisposeScript _ => true
  | .DisposeValue _ => true
  | _ => false

/-- The pairing of the scope guard as the specification words it, for one call: a call
that touches the references of an isolate works at isolate level (lock, isolate, handle
scope; given back in reverse), and the guards at return are the guards at entry. -/
def ScopeGuardPaired (E : Engine H) (call : Call) (w : World H) : Prop :=
  (∀ i, call.isolate E w = some i →
      IsolateLevel i (guardTrace (traceBetween w (call.run E w))))
    ∧ (call.run E w).guard = w.guard

end Traces

section Theorems

variable {H : Type}

/-- The guards after one guard constructor and the matching destructor are the guards
before, as long as what ran in between left them alone. -/
theorem Guard.step_lock_unlock (g : Guard) (i : Isolate) :
    (g.step (Event.lock i)).step (Event.unlock i) = g := by
  cases g; simp [Guard.step]

/-- What every call appends to the log, and that it leaves the guards as they were. -/
theorem Call.run_stepped (E : Engine H) (call : Call) (w : World H) :
    (call.run E w).log = w.log ++ call.trace E w ∧ (call.run E w).guard = w.guard := by
  cases call
  case NewEngine =>
    simp only [Call.run, Call.trace, V8_NewEngine, ISOLATE_SCOPE, Locker, Isolate_Scope,
      HandleScope, engineCall, V8_Context.construct, newIsolateEntered, isolateEntered,
      isolateBracket]
    cases h : (E.ContextNew _ _ _).1 <;>
      simp [h, World.emit, World.setHeap, Guard.step]
  case NewContext engine =>
    simp only [Call.run, Call.trace, V8_NewContext, ISOLATE_SCOPE, Locker, Isolate_Scope,
      HandleScope, engineCall, V8_Context.construct, isolateEntered, V8_Context.GetIsolate,
      isolateBracket]
    cases h : (E.ContextNew _ _ _).1 <;>
      simp [h, World.emit, World.setHeap, Guard.step]
  case Compile engine code length script_origin script_data =>
    simp only [Call.run, Call.trace, V8_Compile, ISOLATE_SCOPE, Locker, Isolate_Scope,
      HandleScope, Context_Scope, engineCall, V8_Script.construct, isolateEntered,
      contextEntered, V8_Context.GetIsolate, Local_New, isolateBracket, contextBracket]
    cases h : (E.ScriptNew _ _ _ _ _ _).1 <;>
      simp [h, World.emit, World.setHeap, Guard.step]
  case RunScript context script =>
    simp only [Call.run, Call.trace, V8_RunScript, ISOLATE_SCOPE, Locker, Isolate_Scope,
      HandleScope, Context_Scope, engineCall, V8_Value.construct, isolateEntered,
      contextEntered, V8_Context.GetIsolate, Local_New, isolateBracket, contextBracket,
      valueResets]
    cases h : (E.ScriptRun _ _ _).1 <;>
      simp [h, World.emit, World.setHeap, Guard.step]
  case ValueIs p value =>
    cases p <;>
      simp [Call.run, Call.trace, V8_ValueIs, V8_ValueIsUndefined, V8_ValueIsNull,
        V8_ValueIsTrue, V8_ValueIsFalse, V8_ValueIsString, V8_ValueIsFunction,
        V8_ValueIsArray, V8_ValueIsObject, V8_ValueIsBoolean, V8_ValueIsNumber,
        V8_ValueIsExternal, V8_ValueIsInt32, V8_ValueIsUint32, V8_ValueIsDate,
        V8_ValueIsBooleanObject, V8_ValueIsNumberObject, V8_ValueIsStringObject,
        V8_ValueIsNativeError, V8_ValueIsRegExp, VALUE_TO_LOCAL, ISOLATE_SCOPE, Locker,
        Isolate_Scope, HandleScope, engineQuery, Local_New, World.emit, V8_Value.GetIsolate,
        Guard.step, isolateBracket]
  all_goals
    simp [Call.run, Call.trace, V8_DisposeEngine, V8_DisposeContext, V8_DisposeScript,
      V8_PreCompile, V8_NewScriptData, V8_DisposeScriptData, V8_ScriptDataLength,
      V8_ScriptDataGetData, V8_ScriptDataHasError, V8_NewScriptOrigin, V8_DisposeScriptOrigin,
      V8_DisposeValue, V8_ValueToString, V8_Undefined, V8_Null, V8_True, V8_False,
      V8_ValueToBoolean, V8_ValueToNumber, V8_ValueToInteger, V8_ValueToUint32,
      V8_ValueToInt32, V8_NewNumber, V8_NewString, V8_SetProperty, V8_GetProperty,
      V8_SetElement, V8_GetElement, V8_GetPropertyAttributes, V8_ForceSetProperty,
      V8_HasProperty, V8_DeleteProperty, V8_ForceDeleteProperty, V8_HasElement,
      V8_DeleteElement, V8_ArrayLength, V8_Context.destruct, V8_Script.destruct,
      V8_Value.construct, V8_Value.destruct, VALUE_SCOPE, VALUE_TO_LOCAL, ISOLATE_SCOPE,
      Locker, Isolate_Scope, HandleScope, Context_Scope, engineCall, engineQuery, Local_New,
      World.emit, World.setHeap, V8_Value.GetIsolate, V8_Context.GetIsolate, Guard.step,
      isolateBracket, contextBracket, lockBracket, valueResets, isolateEntered,
      contextEntered]

/-- The trace between a world and the world after a call is the expected one. -/
theorem Call.traceBetween_run (E : Engine H) (call : Call) (w : World H) :
    traceBetween w (call.run E w) = call.trace E w := by
  unfold traceBetween
  rw [(Call.run_stepped E call w).1]
  simp

/-- The result of `V8_NewEngine`: the answer of `Context::New`, wrapped. -/
theorem V8_NewEngine_result (E : Engine H) (w : World H) :
    (V8_NewEngine E w).1 =
      (E.ContextNew (newIsolateEntered E w).heap (newIsolateEntered E w).guard
        (E.IsolateNew w.heap).1).1.map
        (fun c => ({ isolate_ := (E.IsolateNew w.heap).1, self := some c } : V8_Context)) := by
  simp only [V8_NewEngine, ISOLATE_SCOPE, Locker, Isolate_Scope, HandleScope, engineCall,
    V8_Context.construct, newIsolateEntered, isolateEntered]
  cases h : (E.ContextNew _ _ _).1 <;> simp [h]

/-- The result of `V8_NewContext`: the answer of `Context::New`, wrapped. -/
theorem V8_NewContext_result (E : Engine H) (w : World H) (engine : V8_Context) :
    (V8_NewContext E engine w).1 =
      (E.ContextNew (isolateEntered w engine.isolate_).heap
        (isolateEntered w engine.isolate_).guard engine.isolate_).1.map
        (fun c => ({ isolate_ := engine.isolate_, self := some c } : V8_Context)) := by
  simp only [V8_NewContext, ISOLATE_SCOPE, Locker, Isolate_Scope, HandleScope, engineCall,
    V8_Context.construct, isolateEntered, V8_Context.GetIsolate]
  cases h : (E.ContextNew _ _ _).1 <;> simp [h]

/-- The result of `V8_Compile`: the answer of `Script::New`, wrapped. -/
theorem V8_Compile_result (E : Engine H) (w : World H) (engine : V8_Context)
    (code : List Nat) (length : Int) (script_origin : Option ScriptOrigin)
    (script_data : Option ScriptData) :
    (V8_Compile E engine code length script_origin script_data w).1 =
      (E.ScriptNew (contextEntered w engine.isolate_ engine.self).heap
        (contextEntered w engine.isolate_ engine.self).guard
        (String_NewFromOneByte engine.isolate_ code length)
        script_origin script_data none).1.map
        (fun s => ({ isolate_ := engine.isolate_, self := some s } : V8_Script)) := by
  simp only [V8_Compile, ISOLATE_SCOPE, Locker, Isolate_Scope, HandleScope, Context_Scope,
    engineCall, V8_Script.construct, isolateEntered, contextEntered, V8_Context.GetIsolate,
    Local_New]
  cases h : (E.ScriptNew _ _ _ _ _ _).1 <;> simp [h]

/-- The result of `V8_RunScript`: the answer of `Script::Run`, wrapped with the context. -/
theorem V8_RunScript_result (E : Engine H) (w : World H) (context : V8_Context)
    (script : V8_Script) :
    (V8_RunScript E context script w).1 =
      (E.ScriptRun (contextEntered w context.isolate_ context.self).heap
        (contextEntered w context.isolate_ context.self).guard script.self).1.map
        (fun v => ({ isolate_ := context.isolate_, self := some v,
                     context := context.self } : V8_Value)) := by
  simp only [V8_RunScript, ISOLATE_SCOPE, Locker, Isolate_Scope, HandleScope, Context_Scope,
    engineCall, V8_Value.construct, isolateEntered, contextEntered, V8_Context.GetIsolate,
    Local_New]
  cases h : (E.ScriptRun _ _ _).1 <;> simp [h]

/-- C1: each of the four factories that can fail returns the engine's answer wrapped:
the null handle (`none`) exactly when the engine's context, script or result reference
is empty, and otherwise a record that holds the isolate and the very object the engine
produced.  `Option.map` is `none` on `none` and `some` on `some`. -/
theorem factory_null_iff_engine_empty (E : Engine H) (w : World H)
    (engine context : V8_Context) (script : V8_Script) (code : List Nat) (length : Int)
    (script_origin : Option ScriptOrigin) (script_data : Option ScriptData) :
    (V8_NewEngine E w).1 =
        (E.ContextNew (newIsolateEntered E w).heap (newIsolateEntered E w).guard
          (E.IsolateNew w.heap).1).1.map
          (fun c => ({ isolate_ := (E.IsolateNew w.heap).1, self := some c } : V8_Context))
    ∧ (V8_NewContext E engine w).1 =
        (E.ContextNew (isolateEntered w engine.isolate_).heap
          (isolateEntered w engine.isolate_).guard engine.isolate_).1.map
          (fun c => ({ isolate_ := engine.isolate_, self := some c } : V8_Context))
    ∧ (V8_Compile E engine code length script_origin script_data w).1 =
        (E.ScriptNew (contextEntered w engine.isolate_ engine.self).heap
          (contextEntered w engine.isolate_ engine.self).guard
          (String_NewFromOneByte engine.isolate_ code length)
          script_origin script_data none).1.map
          (fun s => ({ isolate_ := engine.isolate_, self := some s } : V8_Script))
    ∧ (V8_RunScript E context script w).1 =
        (E.ScriptRun (contextEntered w context.isolate_ context.self).heap
          (contextEntered w context.isolate_ context.self).guard script.self).1.map
          (fun v => ({ isolate_ := context.isolate_, self := some v,
                       context := context.self } : V8_Value)) :=
  ⟨V8_NewEngine_result E w, V8_NewContext_result E w engine,
   V8_Compile_result E w engine code length script_origin script_data,
   V8_RunScript_result E w context script⟩

/-- C2: a non-null value handle returned by `V8_RunScript(c, s)` carries the context held
by `c`; the value handles returned by `V8_GetProperty` and `V8_GetElement` carry the
originating context held by the receiver. -/
theorem result_carries_context (E : Engine H) (w : World H) (c : V8_Context)
    (s : V8_Script) (v : V8_Value) (key : List Nat) (len : Int) (index : Nat) :
    (∀ r : V8_Value, (V8_RunScript E c s w).1 = some r → r.context = c.self)
    ∧ (V8_GetProperty E v key len w).1.context = v.context
    ∧ (V8_GetElement E v index w).1.context = v.context := by
  refine ⟨?_, ?_, ?_⟩
  · intro r hr
    rw [V8_RunScript_result, Option.map_eq_some'] at hr
    obtain ⟨a, _, ha⟩ := hr
    rw [← ha]
  · simp [V8_GetProperty, VALUE_SCOPE, ISOLATE_SCOPE, Locker, Isolate_Scope, HandleScope,
      Context_Scope, engineCall, V8_Value.construct, Local_New]
  · simp [V8_GetElement, VALUE_SCOPE, ISOLATE_SCOPE, Locker, Isolate_Scope, HandleScope,
      Context_Scope, engineCall, V8_Value.construct, Local_New]

/-- C2 at a concrete input: the demo engine runs script 9 in context 5 of isolate 0. -/
theorem result_carries_context_witness :
    (V8_RunScript demoEngine ⟨0, some 5⟩ ⟨0, some 9⟩ demoWorld).1
        = some ⟨0, some (Value.heap 9), some 5⟩
    ∧ (⟨0, some (Value.heap 9), some 5⟩ : V8_Value).context = some 5 :=
  ⟨by decide,
   (result_carries_context demoEngine demoWorld ⟨0, some 5⟩ ⟨0, some 9⟩
      ⟨0, none, none⟩ [] 0 0).1 ⟨0, some (Value.heap 9), some 5⟩ (by decide)⟩

/-- C3: the handles made by `V8_Undefined`, `V8_Null`, `V8_True` and `V8_False` have an
empty context reference and hold the undefined, null, true and false value of the
isolate of the engine handle; the handles made by `V8_NewNumber` and `V8_NewString` hold
the context of the context handle they were given (and the number, the string). -/
theorem singletons_omit_context (w : World H) (e c : V8_Context) (d : Double)
    (val : List Nat) (val_length : Int) :
    (V8_Undefined e w).1 = { isolate_ := e.isolate_, self := some (Value.undefined e.isolate_),
                             context := none }
    ∧ (V8_Null e w).1 = { isolate_ := e.isolate_, self := some (Value.null e.isolate_),
                          context := none }
    ∧ (V8_True e w).1 = { isolate_ := e.isolate_, self := some (Value.true_ e.isolate_),
                          context := none }
    ∧ (V8_False e w).1 = { isolate_ := e.isolate_, self := some (Value.false_ e.isolate_),
                           context := none }
    ∧ (V8_NewNumber c d w).1 = { isolate_ := c.isolate_,
                                 self := some (Value.number c.isolate_ d),
                                 context := c.self }
    ∧ (V8_NewString c val val_length w).1 =
        { isolate_ := c.isolate_,
          self := String_NewFromOneByte c.isolate_ val val_length,
          context := c.self } := by
  refine ⟨?_, ?_, ?_, ?_, ?_, ?_⟩ <;>
    simp [V8_Undefined, V8_Null, V8_True, V8_False, V8_NewNumber, V8_NewString,
      ISOLATE_SCOPE, Locker, Isolate_Scope, HandleScope, V8_Value.construct, Local_New,
      V8_Context.GetIsolate, Undefined, Null, True_, False_, Number_New]

/-- C5, evaluated on the code: asked for line offset 1 and column offset 2, the origin
descriptor made by `V8_NewScriptOrigin` records the name and line offset 1, but its
column offset is 1, the line offset, not the 2 that was passed. -/
theorem script_origin_column_is_line_offset :
    (V8_NewScriptOrigin ⟨0, some 5⟩ [97, 46, 106, 115] 4 1 2 demoWorld).1
      = { resource_name := some (Value.string [97, 46, 106, 115]),
          resource_line_offset := some 1,
          resource_column_offset := some 1 }
    ∧ (V8_NewScriptOrigin ⟨0, some 5⟩ [97, 46, 106, 115] 4 1 2 demoWorld).1.resource_column_offset
      ≠ some 2 := by
  constructor <;> decide

/-- C6: round trip.  For every byte sequence `b`, the buffer `V8_ValueToString` returns
for the handle made by `V8_NewString(ctx, b, n)` with `n` the length of `b` has `n + 1`
bytes, its first `n` bytes are `b`, its last byte is the zero terminator, and
`V8_ValueIsString` answers 1 (true) on that handle. -/
theorem string_round_trip (E : Engine H) (w : World H) (ctx : V8_Context) (b : List Nat)
    (hb : ∀ x ∈ b, x < 256) :
    (V8_ValueToString E (V8_NewString ctx b b.length w).1 (V8_NewString ctx b b.length w).2).1
        = b ++ [0]
    ∧ (V8_ValueToString E (V8_NewString ctx b b.length w).1
        (V8_NewString ctx b b.length w).2).1.length = b.length + 1
    ∧ (V8_ValueToString E (V8_NewString ctx b b.length w).1
        (V8_NewString ctx b b.length w).2).1.take b.length = b
    ∧ (V8_ValueToString E (V8_NewString ctx b b.length w).1
        (V8_NewString ctx b b.length w).2).1.getLast? = some 0
    ∧ (V8_ValueIsString E (V8_NewString ctx b b.length w).1
        (V8_ValueToString E (V8_NewString ctx b b.length w).1
          (V8_NewString ctx b b.length w).2).2).1 = 1 := by
  have hmap : List.map (fun u => u % 256) b = b := by
    conv_rhs => rw [← List.map_id b]
    apply List.map_congr_left
    intro x hx
    simpa using Nat.mod_eq_of_lt (hb x hx)
  have hstr : (V8_ValueToString E (V8_NewString ctx b b.length w).1
      (V8_NewString ctx b b.length w).2).1 = b ++ [0] := by
    simp [V8_ValueToString, V8_NewString, VALUE_TO_LOCAL, ISOLATE_SCOPE, Locker,
      Isolate_Scope, HandleScope, V8_Value.construct, Local_New, V8_Context.GetIsolate,
      V8_Value.GetIsolate, String_NewFromOneByte, Value_ToString, engineCall, String_Length,
      String_WriteOneByte, malloc, hmap]
  refine ⟨hstr, ?_, ?_, ?_, ?_⟩
  · rw [hstr]; simp
  · rw [hstr]; simp
  · rw [hstr]; simp
  · simp [V8_ValueIsString, V8_NewString, VALUE_TO_LOCAL, ISOLATE_SCOPE, Locker,
      Isolate_Scope, HandleScope, V8_Value.construct, Local_New, V8_Context.GetIsolate,
      V8_Value.GetIsolate, String_NewFromOneByte, Value_Is, engineQuery, bool_to_int]

/-- C6 at a concrete input: the three bytes of "abc" come back followed by a zero. -/
theorem string_round_trip_witness :
    (∀ x ∈ [97, 98, 99], x < 256)
    ∧ (V8_ValueToString demoEngine (V8_NewString ⟨0, some 5⟩ [97, 98, 99] 3 demoWorld).1
        (V8_NewString ⟨0, some 5⟩ [97, 98, 99] 3 demoWorld).2).1 = [97, 98, 99, 0] :=
  ⟨by decide,
   (string_round_trip demoEngine demoWorld ⟨0, some 5⟩ [97, 98, 99] (by decide)).1⟩

/-- Three events in a row inside a longer trace occur in it in this order. -/
theorem reenters_of_bracket (v : V8_Value) (op : EngineCall) (rest : List Event) :
    ReentersContext v op
      (isolateBracket v.isolate_ (contextBracket v.context (Event.engine op :: rest))) := by
  unfold ReentersContext isolateBracket contextBracket
  simp only [List.cons_append, List.nil_append, List.append_assoc]
  exact List.Sublist.cons _ (List.Sublist.cons₂ _ (List.Sublist.cons _
    (List.Sublist.cons₂ _ (List.Sublist.cons₂ _ (List.nil_sublist _)))))

/-- C4, as the code has it: the eleven property and element operations re-enter the
originating context of the receiver, after entering the isolate and before the engine
operation; `V8_ArrayLength` works at isolate level only: it takes lock, isolate and handle
scope, asks the engine for the length and enters no context. -/
theorem object_operations_reenter_context (E : Engine H) (w : World H) (v pv : V8_Value)
    (key : List Nat) (len attribs : Int) (index : Nat) :
    ReentersContext v EngineCall.Set (traceOf (V8_SetProperty E v key len pv attribs) w)
    ∧ ReentersContext v EngineCall.Get (traceOf (V8_GetProperty E v key len) w)
    ∧ ReentersContext v EngineCall.SetIndex (traceOf (V8_SetElement E v index pv) w)
    ∧ ReentersContext v EngineCall.GetIndex (traceOf (V8_GetElement E v index) w)
    ∧ ReentersContext v EngineCall.GetPropertyAttributes
        (traceOf (V8_GetPropertyAttributes E v key len) w)
    ∧ ReentersContext v EngineCall.ForceSet
        (traceOf (V8_ForceSetProperty E v key len pv attribs) w)
    ∧ ReentersContext v EngineCall.ForceDelete (traceOf (V8_ForceDeleteProperty E v key len) w)
    ∧ ReentersContext v EngineCall.Has (traceOf (V8_HasProperty E v key len) w)
    ∧ ReentersContext v EngineCall.Delete (traceOf (V8_DeleteProperty E v key len) w)
    ∧ ReentersContext v EngineCall.HasIndex (traceOf (V8_HasElement E v index) w)
    ∧ ReentersContext v EngineCall.DeleteIndex (traceOf (V8_DeleteElement E v index) w)
    ∧ traceOf (V8_ArrayLength E v) w
        = [Event.lock v.isolate_, Event.enterIsolate v.isolate_,
           Event.openHandleScope v.isolate_, Event.engine EngineCall.Length,
           Event.closeHandleScope v.isolate_, Event.exitIsolate v.isolate_,
           Event.unlock v.isolate_]
    ∧ contextEntries (traceOf (V8_ArrayLength E v) w) = [] := by
  have hSet := Call.traceBetween_run E (Call.SetProperty v key len pv attribs) w
  have hGet := Call.traceBetween_run E (Call.GetProperty v key len) w
  have hSetE := Call.traceBetween_run E (Call.SetElement v index pv) w
  have hGetE := Call.traceBetween_run E (Call.GetElement v index) w
  have hAttr := Call.traceBetween_run E (Call.GetPropertyAttributes v key len) w
  have hFSet := Call.traceBetween_run E (Call.ForceSetProperty v key len pv attribs) w
  have hFDel := Call.traceBetween_run E (Call.ForceDeleteProperty v key len) w
  have hHas := Call.traceBetween_run E (Call.HasProperty v key len) w
  have hDel := Call.traceBetween_run E (Call.DeleteProperty v key len) w
  have hHasE := Call.traceBetween_run E (Call.HasElement v index) w
  have hDelE := Call.traceBetween_run E (Call.DeleteElement v index) w
  have hLen := Call.traceBetween_run E (Call.ArrayLength v) w
  simp only [Call.run, Call.trace] at hSet hGet hSetE hGetE hAttr hFSet
  simp only [Call.run, Call.trace] at hFDel hHas hDel hHasE hDelE hLen
  simp only [traceOf]
  rw [hSet, hGet, hSetE, hGetE, hAttr, hFSet, hFDel, hHas, hDel, hHasE, hDelE, hLen]
  refine ⟨reenters_of_bracket _ _ _, reenters_of_bracket _ _ _, reenters_of_bracket _ _ _,
    reenters_of_bracket _ _ _, reenters_of_bracket _ _ _, reenters_of_bracket _ _ _,
    reenters_of_bracket _ _ _, reenters_of_bracket _ _ _, reenters_of_bracket _ _ _,
    reenters_of_bracket _ _ _, reenters_of_bracket _ _ _, ?_, ?_⟩
  · simp [isolateBracket]
  · simp [isolateBracket, contextEntries]

/-- C4 as stated fails for `V8_ArrayLength`: on a receiver of isolate 0 whose originating
context is context 5, the trace of the call never enters context 5. -/
theorem array_length_does_not_reenter_context :
    ¬ ReentersContext ⟨0, some (Value.heap 1), some 5⟩ EngineCall.Length
        (traceOf (V8_ArrayLength demoEngine ⟨0, some (Value.heap 1), some 5⟩) demoWorld) := by
  unfold ReentersContext
  decide

/-- The guard events of a body at isolate level. -/
theorem guardTrace_isolateBracket (i : Isolate) (t : List Event) :
    guardTrace (isolateBracket i t) = isolateBracket i (guardTrace t) := by
  simp [guardTrace, isolateBracket, Event.isGuard, List.filter_cons]

/-- The guard events of a body inside a context. -/
theorem guardTrace_contextBracket (c : Handle Context) (t : List Event) :
    guardTrace (contextBracket c t) = contextBracket c (guardTrace t) := by
  simp [guardTrace, contextBracket, Event.isGuard, List.filter_cons]

/-- The guard events of a destructor body. -/
theorem guardTrace_lockBracket (i : Isolate) (t : List Event) :
    guardTrace (lockBracket i t) = lockBracket i (guardTrace t) := by
  simp [guardTrace, lockBracket, Event.isGuard, List.filter_cons]

/-- Constructing a value record involves no guard. -/
theorem guardTrace_valueResets (i : Isolate) (c : Handle Context) (v : Handle Value) :
    guardTrace (valueResets i c v) = [] := by
  simp [guardTrace, valueResets, Event.isGuard]

/-- A trace bracketed at isolate level is at isolate level. -/
theorem isolateLevel_isolateBracket (i : Isolate) (t : List Event) :
    IsolateLevel i (isolateBracket i t) := by
  unfold IsolateLevel isolateBracket
  constructor
  · rw [List.append_assoc]
    exact List.prefix_append _ _
  · exact List.suffix_append _ _

/-- The guard events of two traces in a row. -/
theorem guardTrace_append (s t : List Event) :
    guardTrace (s ++ t) = guardTrace s ++ guardTrace t := by
  simp [guardTrace]

/-- The guard events of a trace that starts with a given event. -/
theorem guardTrace_cons (e : Event) (t : List Event) :
    guardTrace (e :: t) = if e.isGuard = true then e :: guardTrace t else guardTrace t := by
  simp [guardTrace, List.filter_cons]

/-- The empty trace has no guard events. -/
theorem guardTrace_nil : guardTrace [] = [] := rfl

/-- C7, as the code has it: every exported function leaves the guards (lock depth,
entered isolates, handle scopes, entered contexts) at return as they were at entry, the
early null returns of the four failing factories included, since the engine is
arbitrary.  A function that touches the references of an isolate and is not one of the
four disposal functions takes lock, isolate and handle scope in this order and gives them
back in the reverse order.  The four disposal functions take the lock and enter the
isolate only: they open no handle scope.  The remaining functions touch no guard. -/
theorem scope_guard_paired_except_disposers (E : Engine H) (call : Call) (w : World H) :
    (call.run E w).guard = w.guard
    ∧ (∀ j : Isolate, (call.run E w).guard.lockDepth j = w.guard.lockDepth j)
    ∧ (match call.isolate E w with
       | none => guardTrace (traceBetween w (call.run E w)) = []
       | some i =>
          if call.isDispose = true then
            guardTrace (traceBetween w (call.run E w))
              = [Event.lock i, Event.enterIsolate i, Event.exitIsolate i, Event.unlock i]
          else IsolateLevel i (guardTrace (traceBetween w (call.run E w)))) := by
  refine ⟨(Call.run_stepped E call w).2, fun j => by rw [(Call.run_stepped E call w).2], ?_⟩
  rw [Call.traceBetween_run]
  cases call <;>
    simp [Call.isolate, Call.isDispose, Call.trace, guardTrace_isolateBracket,
      guardTrace_lockBracket, guardTrace_append, guardTrace_cons, guardTrace_nil,
      Event.isGuard, isolateLevel_isolateBracket, lockBracket]

/-- C7 as stated fails for the disposal functions: `V8_DisposeValue` on a value handle of
isolate 0 takes the lock and enters the isolate, but its guard events do not start with
lock, isolate entry and handle-scope opening, because it opens no handle scope. -/
theorem dispose_value_opens_no_handle_scope :
    ¬ ScopeGuardPaired demoEngine (Call.DisposeValue ⟨0, some (Value.heap 1), some 5⟩)
        demoWorld := by
  intro h
  have h0 := (h.1 0 rfl).1
  revert h0
  decide

/-- The isolates disposed by two traces in a row. -/
theorem isolateDisposals_append (s t : List Event) :
    isolateDisposals (s ++ t) = isolateDisposals s ++ isolateDisposals t := by
  simp [isolateDisposals]

/-- A body at isolate level disposes what the body disposes. -/
theorem isolateDisposals_isolateBracket (i : Isolate) (t : List Event) :
    isolateDisposals (isolateBracket i t) = isolateDisposals t := by
  simp [isolateDisposals, isolateBracket, List.filterMap_cons, List.filterMap_append]

/-- A body inside a context disposes what the body disposes. -/
theorem isolateDisposals_contextBracket (c : Handle Context) (t : List Event) :
    isolateDisposals (contextBracket c t) = isolateDisposals t := by
  simp [isolateDisposals, contextBracket, List.filterMap_cons, List.filterMap_append]

/-- A destructor body disposes what the body disposes. -/
theorem isolateDisposals_lockBracket (i : Isolate) (t : List Event) :
    isolateDisposals (lockBracket i t) = isolateDisposals t := by
  simp [isolateDisposals, lockBracket, List.filterMap_cons, List.filterMap_append]

/-- Constructing a value record disposes no isolate. -/
theorem isolateDisposals_valueResets (i : Isolate) (c : Handle Context) (v : Handle Value) :
    isolateDisposals (valueResets i c v) = [] := by
  simp [isolateDisposals, valueResets, List.filterMap_cons]

/-- An engine call disposes no isolate. -/
theorem isolateDisposals_engine (op : EngineCall) (t : List Event) :
    isolateDisposals (Event.engine op :: t) = isolateDisposals t := by
  simp [isolateDisposals, List.filterMap_cons]

/-- Creating an isolate disposes none. -/
theorem isolateDisposals_isolateNew (i : Isolate) (t : List Event) :
    isolateDisposals (Event.isolateNew i :: t) = isolateDisposals t := by
  simp [isolateDisposals, List.filterMap_cons]

/-- The isolates each call disposes, read off its expected trace. -/
theorem isolateDisposals_trace (E : Engine H) (call : Call) (w : World H) :
    isolateDisposals (call.trace E w) =
      (match call with
       | Call.DisposeEngine engine => [engine.isolate_]
       | _ => []) := by
  cases call <;>
    simp only [Call.trace, isolateDisposals_isolateBracket, isolateDisposals_contextBracket,
      isolateDisposals_lockBracket, isolateDisposals_append, isolateDisposals_valueResets,
      isolateDisposals_engine, isolateDisposals_isolateNew]
  case NewEngine => split <;> simp [isolateDisposals]
  case NewContext engine => split <;> simp [isolateDisposals]
  case Compile engine code length script_origin script_data =>
    split <;> simp [isolateDisposals]
  case RunScript context script =>
    split <;> simp [isolateDisposals, valueResets]
  all_goals simp [isolateDisposals]

/-- C8: `V8_DisposeEngine` takes the lock and enters the isolate, disposes the context
reference it holds, leaves the isolate and the lock, and only then disposes the isolate.
`V8_DisposeContext`, `V8_DisposeScript` and `V8_DisposeValue` dispose, between lock and
unlock, the persistent references of their own record and nothing else, and leave the
engine heap as it was.  Of all exported functions only `V8_DisposeEngine` disposes an
isolate: the isolates a call disposes are the isolate of the engine handle for
`V8_DisposeEngine` and none for every other call. -/
theorem only_dispose_engine_disposes_isolate (E : Engine H) (w : World H)
    (e c : V8_Context) (s : V8_Script) (v : V8_Value) (call : Call) :
    traceOf (V8_DisposeEngine E e) w
        = [Event.lock e.isolate_, Event.enterIsolate e.isolate_,
           Event.persistentDispose (Ref.context e.self), Event.persistentClear (Ref.context none),
           Event.exitIsolate e.isolate_, Event.unlock e.isolate_,
           Event.isolateDispose e.isolate_]
    ∧ (V8_DisposeEngine E e w).2.heap = E.IsolateDispose w.heap e.isolate_
    ∧ traceOf (V8_DisposeContext c) w
        = [Event.lock c.isolate_, Event.enterIsolate c.isolate_,
           Event.persistentDispose (Ref.context c.self), Event.persistentClear (Ref.context none),
           Event.exitIsolate c.isolate_, Event.unlock c.isolate_]
    ∧ (V8_DisposeContext c w).2.heap = w.heap
    ∧ traceOf (V8_DisposeScript s) w
        = [Event.lock s.isolate_, Event.enterIsolate s.isolate_,
           Event.persistentDispose (Ref.script s.self), Event.persistentClear (Ref.script none),
           Event.exitIsolate s.isolate_, Event.unlock s.isolate_]
    ∧ (V8_DisposeScript s w).2.heap = w.heap
    ∧ traceOf (V8_DisposeValue v) w
        = [Event.lock v.isolate_, Event.enterIsolate v.isolate_,
           Event.persistentDispose (Ref.value v.self), Event.persistentClear (Ref.value none),
           Event.persistentDispose (Ref.context v.context),
           Event.persistentClear (Ref.context none),
           Event.exitIsolate v.isolate_, Event.unlock v.isolate_]
    ∧ (V8_DisposeValue v w).2.heap = w.heap
    ∧ isolateDisposals (traceBetween w (call.run E w)) =
        (match call with
         | Call.DisposeEngine engine => [engine.isolate_]
         | _ => []) := by
  have hE := Call.traceBetween_run E (Call.DisposeEngine e) w
  have hC := Call.traceBetween_run E (Call.DisposeContext c) w
  have hS := Call.traceBetween_run E (Call.DisposeScript s) w
  have hV := Call.traceBetween_run E (Call.DisposeValue v) w
  simp only [Call.run, Call.trace] at hE hC hS hV
  simp only [traceOf]
  rw [hE, hC, hS, hV, Call.traceBetween_run, isolateDisposals_trace]
  refine ⟨by simp [lockBracket], ?_, by simp [lockBracket], ?_, by simp [lockBracket], ?_,
    by simp [lockBracket], ?_, rfl⟩
  · simp [V8_DisposeEngine, V8_Context.destruct, Locker, Isolate_Scope, World.emit,
      World.setHeap, V8_Context.GetIsolate]
  · simp [V8_DisposeContext, V8_Context.destruct, Locker, Isolate_Scope, World.emit]
  · simp [V8_DisposeScript, V8_Script.destruct, Locker, Isolate_Scope, World.emit]
  · simp [V8_DisposeValue, V8_Value.destruct, Locker, Isolate_Scope, World.emit]

/-- What a classification function returns and the world it leaves: the answer of the
engine for the value reference of the record, read in the heap as it is, and the same
heap and guards with the isolate-level bracket around the query appended to the log. -/
theorem V8_ValueIs_eq (E : Engine H) (p : Pred) (v : V8_Value) (w : World H) :
    V8_ValueIs E p v w =
      (bool_to_int (Value_Is E w.heap p v.self),
        { heap := w.heap, guard := w.guard,
          log := w.log ++ isolateBracket v.isolate_ [Event.engine (EngineCall.Is p)] }) := by
  cases w with
  | mk heap guard log =>
    cases guard
    cases p <;>
      simp [V8_ValueIs, V8_ValueIsUndefined, V8_ValueIsNull,
        V8_ValueIsTrue, V8_ValueIsFalse, V8_ValueIsString, V8_ValueIsFunction,
        V8_ValueIsArray, V8_ValueIsObject, V8_ValueIsBoolean, V8_ValueIsNumber,
        V8_ValueIsExternal, V8_ValueIsInt32, V8_ValueIsUint32, V8_ValueIsDate,
        V8_ValueIsBooleanObject, V8_ValueIsNumberObject, V8_ValueIsStringObject,
        V8_ValueIsNativeError, V8_ValueIsRegExp, VALUE_TO_LOCAL, ISOLATE_SCOPE, Locker,
        Isolate_Scope, HandleScope, engineQuery, Local_New, World.emit, V8_Value.GetIsolate,
        Guard.step, isolateBracket]

/-- C9: for every value handle `v` and each of the nineteen classification functions
(`V8_ValueIs E p` is the one for the method `p`): the call takes lock, isolate and handle
scope, asks the engine once and gives the three back, entering no context; it returns
only the answer, so nothing of the record is written; it leaves the engine heap and the
guards as they were; and a second call right after the first returns the same answer. -/
theorem classification_is_idempotent (E : Engine H) (p : Pred) (v : V8_Value) (w : World H) :
    traceOf (V8_ValueIs E p v) w
        = [Event.lock v.isolate_, Event.enterIsolate v.isolate_,
           Event.openHandleScope v.isolate_, Event.engine (EngineCall.Is p),
           Event.closeHandleScope v.isolate_, Event.exitIsolate v.isolate_,
           Event.unlock v.isolate_]
    ∧ contextEntries (traceOf (V8_ValueIs E p v) w) = []
    ∧ (V8_ValueIs E p v w).2.heap = w.heap
    ∧ (V8_ValueIs E p v w).2.guard = w.guard
    ∧ (V8_ValueIs E p v (V8_ValueIs E p v w).2).1 = (V8_ValueIs E p v w).1 := by
  simp [traceOf, traceBetween, V8_ValueIs_eq, isolateBracket, contextEntries]

/-- C10: every handle returned by a factory other than `V8_NewEngine` carries the isolate
of the handle passed as the first argument: the engine handle for `V8_NewContext`,
`V8_Compile` and the four singletons, the context handle for `V8_RunScript`,
`V8_NewNumber` and `V8_NewString`, the receiver for `V8_GetProperty` and `V8_GetElement`.
`V8_RunScript(c, s)` locks the isolate of `c` first, and the isolate stored in `s` plays
no part: with any other isolate in the script record the call returns the same result
and leaves the same world. -/
theorem factories_propagate_isolate (E : Engine H) (w : World H) (e c : V8_Context)
    (s : V8_Script) (v : V8_Value) (code : List Nat) (length : Int)
    (script_origin : Option ScriptOrigin) (script_data : Option ScriptData) (d : Double)
    (val : List Nat) (val_length : Int) (key : List Nat) (len : Int) (index : Nat) :
    (∀ r : V8_Context, (V8_NewContext E e w).1 = some r → r.isolate_ = e.isolate_)
    ∧ (∀ r : V8_Script, (V8_Compile E e code length script_origin script_data w).1 = some r →
        r.isolate_ = e.isolate_)
    ∧ (∀ r : V8_Value, (V8_RunScript E c s w).1 = some r → r.isolate_ = c.isolate_)
    ∧ (V8_Undefined e w).1.isolate_ = e.isolate_
    ∧ (V8_Null e w).1.isolate_ = e.isolate_
    ∧ (V8_True e w).1.isolate_ = e.isolate_
    ∧ (V8_False e w).1.isolate_ = e.isolate_
    ∧ (V8_NewNumber c d w).1.isolate_ = c.isolate_
    ∧ (V8_NewString c val val_length w).1.isolate_ = c.isolate_
    ∧ (V8_GetProperty E v key len w).1.isolate_ = v.isolate_
    ∧ (V8_GetElement E v index w).1.isolate_ = v.isolate_
    ∧ [Event.lock c.isolate_] <+: traceOf (V8_RunScript E c s) w
    ∧ (∀ j : Isolate, V8_RunScript E c { s with isolate_ := j } w = V8_RunScript E c s w) := by
  refine ⟨?_, ?_, ?_, ?_, ?_, ?_, ?_, ?_, ?_, ?_, ?_, ?_, ?_⟩
  · intro r hr
    rw [V8_NewContext_result, Option.map_eq_some'] at hr
    obtain ⟨a, _, ha⟩ := hr
    rw [← ha]
  · intro r hr
    rw [V8_Compile_result, Option.map_eq_some'] at hr
    obtain ⟨a, _, ha⟩ := hr
    rw [← ha]
  · intro r hr
    rw [V8_RunScript_result, Option.map_eq_some'] at hr
    obtain ⟨a, _, ha⟩ := hr
    rw [← ha]
  · simp [V8_Undefined, ISOLATE_SCOPE, Locker, Isolate_Scope, HandleScope,
      V8_Value.construct, V8_Context.GetIsolate]
  · simp [V8_Null, ISOLATE_SCOPE, Locker, Isolate_Scope, HandleScope,
      V8_Value.construct, V8_Context.GetIsolate]
  · simp [V8_True, ISOLATE_SCOPE, Locker, Isolate_Scope, HandleScope,
      V8_Value.construct, V8_Context.GetIsolate]
  · simp [V8_False, ISOLATE_SCOPE, Locker, Isolate_Scope, HandleScope,
      V8_Value.construct, V8_Context.GetIsolate]
  · simp [V8_NewNumber, ISOLATE_SCOPE, Locker, Isolate_Scope, HandleScope,
      V8_Value.construct, V8_Context.GetIsolate]
  · simp [V8_NewString, ISOLATE_SCOPE, Locker, Isolate_Scope, HandleScope,
      V8_Value.construct, V8_Context.GetIsolate]
  · simp [V8_GetProperty, VALUE_SCOPE, ISOLATE_SCOPE, Locker, Isolate_Scope, HandleScope,
      Context_Scope, engineCall, V8_Value.construct, V8_Value.GetIsolate]
  · simp [V8_GetElement, VALUE_SCOPE, ISOLATE_SCOPE, Locker, Isolate_Scope, HandleScope,
      Context_Scope, engineCall, V8_Value.construct, V8_Value.GetIsolate]
  · have h := Call.traceBetween_run E (Call.RunScript c s) w
    simp only [Call.run, Call.trace] at h
    simp only [traceOf]
    rw [h]
    unfold isolateBracket
    simp only [List.cons_append, List.nil_append, List.append_assoc]
    exact List.prefix_append [Event.lock c.isolate_] _
  · intro j
    rfl

/-- C10 at a concrete input: the demo engine makes a context, a script and a result for
handles of isolate 0, and each of the three new handles is of isolate 0. -/
theorem factories_propagate_isolate_witness :
    (V8_NewContext demoEngine ⟨0, some 5⟩ demoWorld).1 = some ⟨0, some 10⟩
    ∧ (V8_Compile demoEngine ⟨0, some 5⟩ [49, 43, 50] 3 none none demoWorld).1
        = some ⟨0, some 20⟩
    ∧ (V8_RunScript demoEngine ⟨0, some 5⟩ ⟨7, some 9⟩ demoWorld).1
        = some ⟨0, some (Value.heap 9), some 5⟩
    ∧ (⟨0, some 10⟩ : V8_Context).isolate_ = 0
    ∧ (⟨0, some 20⟩ : V8_Script).isolate_ = 0
    ∧ (⟨0, some (Value.heap 9), some 5⟩ : V8_Value).isolate_ = 0 :=
  have h := factories_propagate_isolate demoEngine demoWorld ⟨0, some 5⟩ ⟨0, some 5⟩
    ⟨7, some 9⟩ ⟨0, none, none⟩ [49, 43, 50] 3 none none 0 [] 0 [] 0 0
  ⟨by decide, by decide, by decide, h.1 _ (by decide), h.2.1 _ (by decide),
   h.2.2.1 _ (by decide)⟩

end Theorems

end V8Wrap
